import Mathlib

/-!
# hiredis-vip: the unified client facade and the win32 TCP connect

A shallow embedding of `redis_client.c` (the dispatcher over the single-node
and the cluster backend) and of `win32/net.c` (the TCP connect with its
readiness wait), followed by theorems about them.

Conventions of the embedding

* a C string is the list of its characters (`CString`), a possibly-null
  `const char *` is an `Option CString`;
* a pointer handed out by a collaborator is its integer address, `0` is `NULL`;
* the collaborators of `redis_client.c` (hiredis and hircluster) are an oracle
  `Backend`: every call is recorded together with the value it returned;
* `malloc` and `strdup` are taken to succeed.
-/

namespace HiredisVip

/-! ## Shared C-level vocabulary -/

/-- A NUL-terminated C string, as the list of its characters. -/
abbrev CString := List Char

/-- Modelled from the spec: `REDIS_OK` of hiredis.h, "integer operations return 0 on success". -/
def REDIS_OK : Int := 0

/-- Modelled from the spec: `REDIS_ERR` of hiredis.h, "-1 on error". -/
def REDIS_ERR : Int := -1

/-- The `struct timeval` of the C library: seconds and microseconds. -/
structure timeval where
  tv_sec : Int
  tv_usec : Int
deriving DecidableEq, Repr

/-- The largest `int` (32 bits). -/
def INT_MAX : Int := 2147483647

/-! ## libc helpers used by `redis_client.c` -/

/-- The libc `strstr`: offset of the first occurrence of `needle` in `hay`, `none` for `NULL`. -/
def strstr (hay needle : CString) : Option Nat :=
  match hay with
  | [] => if needle = [] then some 0 else none
  | c :: cs =>
    if needle.isPrefixOf (c :: cs) then some 0
    else (strstr cs needle).map (fun i => i + 1)

/-- The libc `isspace` in the C locale. -/
def isspace (c : Char) : Bool :=
  c = ' ' || (9 ≤ c.toNat && c.toNat ≤ 13)

/-- The libc `isdigit`. -/
def isdigit (c : Char) : Bool :=
  48 ≤ c.toNat && c.toNat ≤ 57

/-- Positional base-10 value of a string of digits. -/
def decimalValue (s : CString) : Nat :=
  s.foldl (fun n c => 10 * n + (c.toNat - 48)) 0

/-- Two's-complement reduction of an integer to the range of a 32-bit `int`. -/
def wrapInt (x : Int) : Int :=
  (x + 2147483648) % 4294967296 - 2147483648

/-- The libc `atoi`: skip white space, read an optional sign, then the longest run of
decimal digits. C leaves a value outside the range of `int` undefined; here it wraps. -/
def atoi (s : CString) : Int :=
  let s1 := s.dropWhile isspace
  let signed : Bool × CString :=
    match s1 with
    | '-' :: r => (true, r)
    | '+' :: r => (false, r)
    | _ => (false, s1)
  let n : Int := (decimalValue (signed.2.takeWhile isdigit) : Nat)
  wrapInt (if signed.1 then -n else n)

/-! ## `redis_client.c` -/

/-- The first value of `enum REDIS_SERVER_TYPE`. -/
def REDIS_SINGLE_NODE : Int := 0

/-- The second value of `enum REDIS_SERVER_TYPE`. -/
def REDIS_CLUSTER : Int := 1

/-- The `struct redisClient`: the tag and the union of the two backend pointers
(`node` and `cluster` share their storage, here `backend`). -/
structure redisClient where
  serverType : Int
  backend : Int
deriving DecidableEq, Repr

/-- The calls `redis_client.c` makes into hiredis (single node) and hircluster (cluster),
with their arguments. `va_list`s, buffers and argument vectors are passed by address. -/
inductive Call where
  | redisConnect (ip : CString) (port : Int)
  | redisConnectWithTimeout (ip : CString) (port : Int) (tv : timeval)
  | redisClusterContextInit
  | redisClusterSetOptionAddNodes (cc : Int) (addrs : CString)
  | redisClusterSetOptionConnectTimeout (cc : Int) (tv : timeval)
  | redisClusterConnect2 (cc : Int)
  | redisReconnect (c : Int)
  | redisSetTimeout (c : Int) (tv : timeval)
  | redisClusterSetOptionTimeout (cc : Int) (tv : timeval)
  | redisEnableKeepAlive (c : Int)
  | redisFree (c : Int)
  | redisClusterFree (cc : Int)
  | redisGetReply (c : Int) (reply : Int)
  | redisClusterGetReply (cc : Int) (reply : Int)
  | redisAppendFormattedCommand (c : Int) (cmd : CString) (len : Nat)
  | redisClusterAppendCommand (cc : Int) (cmd : CString) (len : Nat)
  | redisvAppendCommand (c : Int) (format : CString) (ap : Int)
  | redisClustervAppendCommand (cc : Int) (format : CString) (ap : Int)
  | redisAppendCommandArgv (c : Int) (argc : Int) (argv : Int) (argvlen : Int)
  | redisClusterAppendCommandArgv (cc : Int) (argc : Int) (argv : Int) (argvlen : Int)
  | redisvCommand (c : Int) (format : CString) (ap : Int)
  | redisClustervCommand (cc : Int) (format : CString) (ap : Int)
  | redisCommandArgv (c : Int) (argc : Int) (argv : Int) (argvlen : Int)
  | redisClusterCommandArgv (cc : Int) (argc : Int) (argv : Int) (argvlen : Int)
deriving DecidableEq, Repr

/-- One executed backend call: the call and the value it returned
(a status, or the address of a context or reply). -/
abbrev Event := Call × Int

/-- The backends as an oracle: the value a call returns, given everything
that was called before it. -/
structure Backend where
  respond : List Event → Call → Int

/-- Perform one backend call after the history `hist`. -/
def Backend.invoke (w : Backend) (hist : List Event) (c : Call) : Event :=
  (c, w.respond hist c)

/-- Outcome of a client factory: either the run read through a null pointer
(`strstr` on a null address), or it returned a handle (`none` is the null handle)
after the listed backend calls. -/
inductive ConnectResult where
  | fault
  | ret (clt : Option redisClient) (calls : List Event)
deriving DecidableEq, Repr

/-- The host and port a comma-free address is split into (lines 31-43 and 73-85):
cut at the first `:` and `atoi` the rest, else port 6379. -/
def splitHostPort (addr : CString) : CString × Int :=
  let ip := addr
  match strstr ip [':'] with
  | none => (ip, 6379)
  | some e => (ip.take e, atoi (ip.drop (e + 1)))

/-- The function `redisClientConnect`. -/
def redisClientConnect (w : Backend) (hist : List Event) (addr : Option CString) :
    ConnectResult :=
  match addr with
  | none => .fault
  | some addr =>
    match strstr addr [','] with
    | none =>
      let hp := splitHostPort addr
      let e := w.invoke hist (.redisConnect hp.1 hp.2)
      .ret (some { serverType := REDIS_SINGLE_NODE, backend := e.2 }) [e]
    | some _ =>
      let e1 := w.invoke hist .redisClusterContextInit
      let e2 := w.invoke (hist ++ [e1]) (.redisClusterSetOptionAddNodes e1.2 addr)
      if e2.2 ≠ REDIS_OK then .ret none [e1, e2]
      else
        let e3 := w.invoke (hist ++ [e1, e2]) (.redisClusterConnect2 e1.2)
        if e3.2 ≠ REDIS_OK then .ret none [e1, e2, e3]
        else .ret (some { serverType := REDIS_CLUSTER, backend := e1.2 }) [e1, e2, e3]

/-- The function `redisClientConnectWithTimeout`. -/
def redisClientConnectWithTimeout (w : Backend) (hist : List Event) (addr : Option CString)
    (tv : timeval) : ConnectResult :=
  match addr with
  | none => .fault
  | some addr =>
    match strstr addr [','] with
    | none =>
      let hp := splitHostPort addr
      let e := w.invoke hist (.redisConnectWithTimeout hp.1 hp.2 tv)
      .ret (some { serverType := REDIS_SINGLE_NODE, backend := e.2 }) [e]
    | some _ =>
      let e1 := w.invoke hist .redisClusterContextInit
      let e2 := w.invoke (hist ++ [e1]) (.redisClusterSetOptionAddNodes e1.2 addr)
      if e2.2 ≠ REDIS_OK then .ret none [e1, e2]
      else
        let e3 := w.invoke (hist ++ [e1, e2]) (.redisClusterSetOptionConnectTimeout e1.2 tv)
        if e3.2 ≠ REDIS_OK then .ret none [e1, e2, e3]
        else
          let e4 := w.invoke (hist ++ [e1, e2, e3]) (.redisClusterConnect2 e1.2)
          if e4.2 ≠ REDIS_OK then .ret none [e1, e2, e3, e4]
          else .ret (some { serverType := REDIS_CLUSTER, backend := e1.2 }) [e1, e2, e3, e4]

/-- Result of a dispatcher entry: the returned value and the backend calls it made. -/
abbrev Dispatch := Int × List Event

/-- Forward one call to the backend and return its value. -/
def forward (w : Backend) (hist : List Event) (c : Call) : Dispatch :=
  ((w.invoke hist c).2, [w.invoke hist c])

/-- The function `redisClientReconnect`. -/
def redisClientReconnect (w : Backend) (hist : List Event) (c : redisClient) : Dispatch :=
  if c.serverType = REDIS_SINGLE_NODE then forward w hist (.redisReconnect c.backend)
  else (REDIS_OK, [])

/-- The function `redisClientSetTimeout`. -/
def redisClientSetTimeout (w : Backend) (hist : List Event) (c : redisClient) (tv : timeval) :
    Dispatch :=
  if c.serverType = REDIS_SINGLE_NODE then forward w hist (.redisSetTimeout c.backend tv)
  else if c.serverType = REDIS_CLUSTER then
    forward w hist (.redisClusterSetOptionTimeout c.backend tv)
  else (REDIS_OK, [])

/-- The function `redisClientEnableKeepAlive`. -/
def redisClientEnableKeepAlive (w : Backend) (hist : List Event) (c : redisClient) : Dispatch :=
  if c.serverType = REDIS_SINGLE_NODE then forward w hist (.redisEnableKeepAlive c.backend)
  else (REDIS_OK, [])

/-- The function `redisClientFree`; it returns nothing, the result is the calls made. -/
def redisClientFree (w : Backend) (hist : List Event) (c : redisClient) : List Event :=
  if c.serverType = REDIS_SINGLE_NODE then [w.invoke hist (.redisFree c.backend)]
  else if c.serverType = REDIS_CLUSTER then [w.invoke hist (.redisClusterFree c.backend)]
  else []

/-- The function `redisClientGetReply`. -/
def redisClientGetReply (w : Backend) (hist : List Event) (c : redisClient) (reply : Int) :
    Dispatch :=
  if c.serverType = REDIS_SINGLE_NODE then forward w hist (.redisGetReply c.backend reply)
  else if c.serverType = REDIS_CLUSTER then
    forward w hist (.redisClusterGetReply c.backend reply)
  else (REDIS_OK, [])

/-- The function `redisClientAppendFormattedCommand`. -/
def redisClientAppendFormattedCommand (w : Backend) (hist : List Event) (c : redisClient)
    (cmd : CString) (len : Nat) : Dispatch :=
  if c.serverType = REDIS_SINGLE_NODE then
    forward w hist (.redisAppendFormattedCommand c.backend cmd len)
  else if c.serverType = REDIS_CLUSTER then
    forward w hist (.redisClusterAppendCommand c.backend cmd len)
  else (REDIS_OK, [])

/-- The function `redisClientvAppendCommand`. -/
def redisClientvAppendCommand (w : Backend) (hist : List Event) (c : redisClient)
    (format : CString) (ap : Int) : Dispatch :=
  if c.serverType = REDIS_SINGLE_NODE then
    forward w hist (.redisvAppendCommand c.backend format ap)
  else if c.serverType = REDIS_CLUSTER then
    forward w hist (.redisClustervAppendCommand c.backend format ap)
  else (REDIS_OK, [])

/-- The function `redisClientAppendCommand`: `ap` is the captured variadic list. -/
def redisClientAppendCommand (w : Backend) (hist : List Event) (c : redisClient)
    (format : CString) (ap : Int) : Dispatch :=
  redisClientvAppendCommand w hist c format ap

/-- The function `redisClientAppendCommandArgv`. -/
def redisClientAppendCommandArgv (w : Backend) (hist : List Event) (c : redisClient)
    (argc argv argvlen : Int) : Dispatch :=
  if c.serverType = REDIS_SINGLE_NODE then
    forward w hist (.redisAppendCommandArgv c.backend argc argv argvlen)
  else if c.serverType = REDIS_CLUSTER then
    forward w hist (.redisClusterAppendCommandArgv c.backend argc argv argvlen)
  else (REDIS_OK, [])

/-- The function `redisClientvCommand`; the value is the reply pointer, `0` for `NULL`. -/
def redisClientvCommand (w : Backend) (hist : List Event) (c : redisClient)
    (format : CString) (ap : Int) : Dispatch :=
  if c.serverType = REDIS_SINGLE_NODE then
    forward w hist (.redisvCommand c.backend format ap)
  else if c.serverType = REDIS_CLUSTER then
    forward w hist (.redisClustervCommand c.backend format ap)
  else (0, [])

/-- The function `redisClientCommand`: `ap` is the captured variadic list. -/
def redisClientCommand (w : Backend) (hist : List Event) (c : redisClient)
    (format : CString) (ap : Int) : Dispatch :=
  redisClientvCommand w hist c format ap

/-- The function `redisClientCommandArgv`; the value is the reply pointer, `0` for `NULL`. -/
def redisClientCommandArgv (w : Backend) (hist : List Event) (c : redisClient)
    (argc argv argvlen : Int) : Dispatch :=
  if c.serverType = REDIS_SINGLE_NODE then
    forward w hist (.redisCommandArgv c.backend argc argv argvlen)
  else if c.serverType = REDIS_CLUSTER then
    forward w hist (.redisClusterCommandArgv c.backend argc argv argvlen)
  else (0, [])

/-! ## `win32/net.c` -/

/-- Constants that `win32/net.c` takes from headers outside the modelled sources:
the width of `long`, the flag bits, retry limit, connection type and error kinds of hiredis.h,
and the `errno` values of the platform. -/
structure Config where
  LONG_MAX : Int
  REDIS_BLOCK : Nat
  REDIS_CONNECTED : Nat
  REDIS_REUSEADDR : Nat
  REDIS_CONNECT_RETRIES : Int
  REDIS_CONN_TCP : Int
  REDIS_ERR_IO_KIND : Int
  REDIS_ERR_OTHER_KIND : Int
  EINPROGRESS : Int
  EHOSTUNREACH : Int
  EADDRNOTAVAIL : Int
  ETIMEDOUT : Int

/-- The value `INVALID_SOCKET`, which the code compares with `-1`. -/
def INVALID_SOCKET : Int := -1

/-- The value `AF_INET` of winsock. -/
def AF_INET : Int := 2

/-- The value `AF_INET6` of winsock. -/
def AF_INET6 : Int := 23

/-- The value `SOCK_STREAM` of winsock. -/
def SOCK_STREAM : Int := 1

/-- One record of the list `getaddrinfo` returns; `ai_addr` is the address it points to. -/
structure addrinfo where
  ai_family : Int
  ai_socktype : Int
  ai_protocol : Int
  ai_addr : Nat
deriving DecidableEq, Repr

/-- The fields of hiredis' `redisContext` that `win32/net.c` reads or writes. -/
structure redisContext where
  err : Int
  errstr : CString
  sock : Int
  flags : Nat
  connection_type : Int
  timeout : Option timeval
  tcp_host : Option CString
  tcp_source_addr : Option CString
  tcp_port : Int
deriving DecidableEq, Repr

/-- The socket options the file sets or reads. -/
inductive SockOpt where
  | SO_REUSEADDR
  | SO_KEEPALIVE
  | SO_RCVTIMEO
  | SO_SNDTIMEO
  | SO_ERROR
  | TCP_NODELAY
deriving DecidableEq, Repr

/-- What a run does to the outside: the OS calls with their arguments, and the
writes to the context's error slot through `__redisSetError`. -/
inductive NetEvent where
  | getaddrinfo (node : Option CString) (service : Option CString) (family : Int)
  | freeaddrinfo
  | socket (family : Int) (socktype : Int) (protocol : Int)
  | ioctlsocket (s : Int) (iMode : Nat)
  | setsockopt (s : Int) (opt : SockOpt)
  | getsockopt (s : Int) (opt : SockOpt)
  | bind (s : Int) (addr : Nat)
  | connect (s : Int) (addr : Nat)
  | WSAPoll (fd : Int) (timeout : Int)
  | closesocket (s : Int)
  | setError (type : Int) (str : CString)
deriving DecidableEq, Repr

/-- Result of one OS call: the returned value, and the value it leaves in `errno`
when it sets it. -/
structure OsReply where
  ret : Int
  errno : Option Int
deriving DecidableEq, Repr

/-- The operating system as an oracle. The result of a call is indexed by the number of
oracle calls made before it, so an `OS` is an arbitrary sequence of results. `getaddrinfo`
gives its return code and the record list, `getsockopt` in addition the value of `SO_ERROR`. -/
structure OS where
  getaddrinfo : Nat → Int × List addrinfo
  socket : Nat → OsReply
  ioctlsocket : Nat → OsReply
  setsockopt : Nat → OsReply
  getsockopt : Nat → OsReply × Int
  bind : Nat → OsReply
  connect : Nat → OsReply
  WSAPoll : Nat → OsReply
  strerror : Int → CString
  gai_strerror : Int → CString

/-- The state a run threads: the context, `errno`, the number of oracle calls so far
and the events so far. -/
structure NetState where
  c : redisContext
  errno : Int
  clock : Nat
  trace : List NetEvent
deriving DecidableEq, Repr

/-- Record an event that consults no oracle. -/
def NetState.emit (st : NetState) (ev : NetEvent) : NetState :=
  { st with trace := st.trace ++ [ev] }

/-- Account for one oracle call: the clock advances, `errno` is updated, the event is recorded. -/
def NetState.sys (st : NetState) (r : OsReply) (ev : NetEvent) : NetState :=
  { st with errno := r.errno.getD st.errno, clock := st.clock + 1, trace := st.trace ++ [ev] }

/-- Modelled from the spec: `__redisSetError` of hiredis.c, which is only declared in
`win32/net.c`; it writes the kind and the message to the context's error slot. -/
def __redisSetError (st : NetState) (type : Int) (str : CString) : NetState :=
  { st with c := { st.c with err := type, errstr := str }, trace := st.trace ++ [.setError type str] }

/-- The function `redisContextCloseFd`. -/
def redisContextCloseFd (st : NetState) : NetState :=
  if st.c.sock ≠ INVALID_SOCKET then
    { st with c := { st.c with sock := INVALID_SOCKET }, trace := st.trace ++ [.closesocket st.c.sock] }
  else st

/-- The function `__redisSetErrorFromErrno`: the message is the optional tag, `": "` and the
text of `errno`, in a buffer of 128 bytes. -/
def __redisSetErrorFromErrno (os : OS) (st : NetState) (type : Int) (pfx : Option CString) :
    NetState :=
  let head : CString :=
    match pfx with
    | some p => (p ++ ": ".toList).take 127
    | none => []
  __redisSetError st type (head ++ (os.strerror st.errno).take (127 - head.length))

/-- The function `redisSetReuseAddr`. -/
def redisSetReuseAddr (cfg : Config) (os : OS) (st : NetState) : Int × NetState :=
  let r := os.setsockopt st.clock
  let st1 := st.sys r (.setsockopt st.c.sock .SO_REUSEADDR)
  if r.ret = -1 then
    (REDIS_ERR, redisContextCloseFd (__redisSetErrorFromErrno os st1 cfg.REDIS_ERR_IO_KIND none))
  else (REDIS_OK, st1)

/-- The function `redisSetBlocking`. -/
def redisSetBlocking (cfg : Config) (os : OS) (st : NetState) (blocking : Bool) :
    Int × NetState :=
  let iMode : Nat := if blocking then 0 else 1
  let r := os.ioctlsocket st.clock
  let st1 := st.sys r (.ioctlsocket st.c.sock iMode)
  if r.ret ≠ 0 then
    (REDIS_ERR, redisContextCloseFd
      (__redisSetErrorFromErrno os st1 cfg.REDIS_ERR_IO_KIND (some "fcntl(F_SETFL)".toList)))
  else (REDIS_OK, st1)

/-- The function `redisSetTcpNoDelay`. -/
def redisSetTcpNoDelay (cfg : Config) (os : OS) (st : NetState) : Int × NetState :=
  let r := os.setsockopt st.clock
  let st1 := st.sys r (.setsockopt st.c.sock .TCP_NODELAY)
  if r.ret = -1 then
    (REDIS_ERR, redisContextCloseFd
      (__redisSetErrorFromErrno os st1 cfg.REDIS_ERR_IO_KIND (some "setsockopt(TCP_NODELAY)".toList)))
  else (REDIS_OK, st1)

/-- Two's-complement reduction of an integer to the range of a `long`. -/
def wrapLong (cfg : Config) (x : Int) : Int :=
  (x + (cfg.LONG_MAX + 1)) % (2 * (cfg.LONG_MAX + 1)) - (cfg.LONG_MAX + 1)

/-- The macro `__MAX_MSEC`. -/
def __MAX_MSEC (cfg : Config) : Int :=
  Int.tdiv (cfg.LONG_MAX - 999) 1000

/-- Lines 133-150 of `redisContextWaitReady`: the deadline `msec` handed to the poll,
`none` when the timeout is rejected. Arithmetic on `long` wraps. -/
def waitReadyMsec (cfg : Config) (timeout : Option timeval) : Option Int :=
  match timeout with
  | none => some (-1)
  | some tv =>
    if tv.tv_usec > 1000000 ∨ tv.tv_sec > __MAX_MSEC cfg then none
    else
      let msec := wrapLong cfg (wrapLong cfg (tv.tv_sec * 1000) +
        Int.tdiv (wrapLong cfg (tv.tv_usec + 999)) 1000)
      if msec < 0 ∨ msec > INT_MAX then some INT_MAX else some msec

/-- The function `redisCheckSocketError`. -/
def redisCheckSocketError (cfg : Config) (os : OS) (st : NetState) : Int × NetState :=
  let r := os.getsockopt st.clock
  let st1 := st.sys r.1 (.getsockopt st.c.sock .SO_ERROR)
  if r.1.ret = -1 then
    (REDIS_ERR, __redisSetErrorFromErrno os st1 cfg.REDIS_ERR_IO_KIND
      (some "getsockopt(SO_ERROR)".toList))
  else if r.2 ≠ 0 then
    (REDIS_ERR, __redisSetErrorFromErrno os { st1 with errno := r.2 } cfg.REDIS_ERR_IO_KIND none)
  else (REDIS_OK, st1)

/-- The function `redisContextWaitReady`. -/
def redisContextWaitReady (cfg : Config) (os : OS) (st : NetState) (timeout : Option timeval) :
    Int × NetState :=
  match waitReadyMsec cfg timeout with
  | none =>
    (REDIS_ERR, redisContextCloseFd (__redisSetErrorFromErrno os st cfg.REDIS_ERR_IO_KIND none))
  | some msec =>
    if st.errno = cfg.EINPROGRESS then
      let r := os.WSAPoll st.clock
      let st1 := st.sys r (.WSAPoll st.c.sock msec)
      if r.ret = -1 then
        (REDIS_ERR, redisContextCloseFd
          (__redisSetErrorFromErrno os st1 cfg.REDIS_ERR_IO_KIND (some "poll(2)".toList)))
      else if r.ret = 0 then
        (REDIS_ERR, redisContextCloseFd
          (__redisSetErrorFromErrno os { st1 with errno := cfg.ETIMEDOUT }
            cfg.REDIS_ERR_IO_KIND none))
      else
        let chk := redisCheckSocketError cfg os st1
        if chk.1 ≠ REDIS_OK then (REDIS_ERR, chk.2) else (REDIS_OK, chk.2)
    else
      (REDIS_ERR, redisContextCloseFd (__redisSetErrorFromErrno os st cfg.REDIS_ERR_IO_KIND none))

/-- The loop over the bind candidates (lines 302-307): `true` when one of them binds. -/
def bindCandidates (os : OS) (s : Int) : List addrinfo → NetState → Bool × NetState
  | [], st => (false, st)
  | b :: bs, st =>
    let r := os.bind st.clock
    let st1 := st.sys r (.bind s b.ai_addr)
    if r.ret ≠ -1 then (true, st1) else bindCandidates os s bs st1

/-- The source-address block (lines 284-315) for the socket `s`: `true` means the run goes
on to `connect`, `false` is `goto error`. `family` is `hints.ai_family`. -/
def bindSource (cfg : Config) (os : OS) (family : Int) (reuseaddr : Nat) (s : Int)
    (st : NetState) : Bool × NetState :=
  match st.c.tcp_source_addr with
  | none => (true, st)
  | some src =>
    let g := os.getaddrinfo st.clock
    let st1 : NetState :=
      { st with clock := st.clock + 1, trace := st.trace ++ [.getaddrinfo (some src) none family] }
    if g.1 ≠ 0 then
      (false, __redisSetError st1 cfg.REDIS_ERR_OTHER_KIND
        (("Can't get addr: ".toList ++ os.gai_strerror g.1).take 127))
    else
      let reuse : Bool × NetState :=
        if reuseaddr ≠ 0 then
          let r := os.setsockopt st1.clock
          (decide (r.ret < 0), st1.sys r (.setsockopt s .SO_REUSEADDR))
        else (false, st1)
      if reuse.1 then (false, reuse.2)
      else
        let bound := bindCandidates os s g.2 reuse.2
        let st3 := bound.2.emit .freeaddrinfo
        if !bound.1 then
          (false, __redisSetError st3 cfg.REDIS_ERR_OTHER_KIND
            (("Can't bind socket: ".toList ++ os.strerror st3.errno).take 127))
        else (true, st3)

/-- Where one pass over the body of the record loop leaves the control flow: `continue`,
`goto addrretry` (still subject to the retry limit), `goto error`, or the fall through
to `goto end` with the connection made. -/
inductive Branch where
  | next
  | addrretry
  | error
  | connected
deriving DecidableEq, Repr

/-- Lines 337-342: restore blocking mode when asked, set `TCP_NODELAY`, mark `CONNECTED`. -/
def postConnect (cfg : Config) (os : OS) (blocking : Nat) (st : NetState) : Branch × NetState :=
  let b : Int × NetState :=
    if blocking ≠ 0 then redisSetBlocking cfg os st true else (REDIS_OK, st)
  if b.1 ≠ REDIS_OK then (.error, b.2)
  else
    let nd := redisSetTcpNoDelay cfg os b.2
    if nd.1 ≠ REDIS_OK then (.error, nd.2)
    else
      (.connected, { nd.2 with c := { nd.2.c with flags := nd.2.c.flags ||| cfg.REDIS_CONNECTED } })

/-- The `connect` call on the socket `s` and the branches on its result (lines 316-344). -/
def connectStep (cfg : Config) (os : OS) (blocking reuseaddr : Nat) (s : Int) (p : addrinfo)
    (st : NetState) : Branch × NetState :=
  let rc := os.connect st.clock
  let st4 := st.sys rc (.connect s p.ai_addr)
  if rc.ret = -1 then
    if st4.errno = cfg.EHOSTUNREACH then (.next, redisContextCloseFd st4)
    else if st4.errno = cfg.EINPROGRESS ∧ blocking = 0 then postConnect cfg os blocking st4
    else if st4.errno = cfg.EADDRNOTAVAIL ∧ reuseaddr ≠ 0 then (.addrretry, st4)
    else
      let w := redisContextWaitReady cfg os st4 st4.c.timeout
      if w.1 ≠ REDIS_OK then (.error, w.2) else postConnect cfg os blocking w.2
  else postConnect cfg os blocking st4

/-- One pass over the body of the record loop (lines 277-344) for the record `p`. -/
def connectAttempt (cfg : Config) (os : OS) (family : Int) (blocking reuseaddr : Nat)
    (p : addrinfo) (st : NetState) : Branch × NetState :=
  let r := os.socket st.clock
  let st1 := st.sys r (.socket p.ai_family p.ai_socktype p.ai_protocol)
  if r.ret = -1 then (.next, st1)
  else
    let s := r.ret
    let st2 : NetState := { st1 with c := { st1.c with sock := s } }
    let nb := redisSetBlocking cfg os st2 false
    if nb.1 ≠ REDIS_OK then (.error, nb.2)
    else
      let src := bindSource cfg os family reuseaddr s nb.2
      if !src.1 then (.error, src.2)
      else connectStep cfg os blocking reuseaddr s p src.2

/-- The record loop of `_redisContextConnectTcp` (lines 276-351) from the record at the head
of the list on, with `reuses` retries made so far; the value is `rv`. -/
def connectLoop (cfg : Config) (os : OS) (family : Int) (blocking reuseaddr : Nat) :
    List addrinfo → Int → NetState → Int × NetState
  | [], _, st =>
    (REDIS_ERR, __redisSetError st cfg.REDIS_ERR_OTHER_KIND
      (("Can't create socket: ".toList ++ os.strerror st.errno).take 127))
  | p :: rest, reuses, st =>
    match connectAttempt cfg os family blocking reuseaddr p st with
    | (.next, st1) => connectLoop cfg os family blocking reuseaddr rest reuses st1
    | (.addrretry, st1) =>
      if reuses + 1 ≥ cfg.REDIS_CONNECT_RETRIES then (REDIS_ERR, st1)
      else connectLoop cfg os family blocking reuseaddr (p :: rest) (reuses + 1) st1
    | (.error, st1) => (REDIS_ERR, st1)
    | (.connected, st1) => (REDIS_OK, st1)
termination_by ps reuses => (ps.length, (cfg.REDIS_CONNECT_RETRIES - reuses).toNat)
decreasing_by
  · exact Prod.Lex.left _ _ (by simp)
  · exact Prod.Lex.right _ (by omega)

/-- The function `_redisContextConnectTcp`. -/
def _redisContextConnectTcp (cfg : Config) (os : OS) (st : NetState) (addr : CString)
    (port : Int) (timeout : Option timeval) (source_addr : Option CString) : Int × NetState :=
  let blocking := st.c.flags &&& cfg.REDIS_BLOCK
  let reuseaddr := st.c.flags &&& cfg.REDIS_REUSEADDR
  let st0 : NetState :=
    { st with c := { st.c with connection_type := cfg.REDIS_CONN_TCP, tcp_port := port,
                               tcp_host := some addr, timeout := timeout,
                               tcp_source_addr := source_addr } }
  let _port : CString := (toString port).toList.take 5
  let g4 := os.getaddrinfo st0.clock
  let st1 : NetState :=
    { st0 with clock := st0.clock + 1,
               trace := st0.trace ++ [.getaddrinfo st0.c.tcp_host (some _port) AF_INET] }
  if g4.1 ≠ 0 then
    let g6 := os.getaddrinfo st1.clock
    let st2 : NetState :=
      { st1 with clock := st1.clock + 1,
                 trace := st1.trace ++ [.getaddrinfo (some addr) (some _port) AF_INET6] }
    if g6.1 ≠ 0 then
      (REDIS_ERR, __redisSetError st2 cfg.REDIS_ERR_OTHER_KIND (os.gai_strerror g6.1))
    else
      let run := connectLoop cfg os AF_INET6 blocking reuseaddr g6.2 0 st2
      (run.1, run.2.emit .freeaddrinfo)
  else
    let run := connectLoop cfg os AF_INET blocking reuseaddr g4.2 0 st1
    (run.1, run.2.emit .freeaddrinfo)

/-- The function `redisContextConnectTcp`. -/
def redisContextConnectTcp (cfg : Config) (os : OS) (st : NetState) (addr : CString)
    (port : Int) (timeout : Option timeval) : Int × NetState :=
  _redisContextConnectTcp cfg os st addr port timeout none

/-- The function `redisContextConnectBindTcp`. -/
def redisContextConnectBindTcp (cfg : Config) (os : OS) (st : NetState) (addr : CString)
    (port : Int) (timeout : Option timeval) (source_addr : Option CString) : Int × NetState :=
  _redisContextConnectTcp cfg os st addr port timeout source_addr

/-- Sample constants for concrete runs: a 32-bit `long` as on win32, the flag bits and
retry limit of upstream hiredis.h, the `errno` values of the MSVC runtime. -/
def sampleConfig : Config where
  LONG_MAX := 2147483647
  REDIS_BLOCK := 1
  REDIS_CONNECTED := 2
  REDIS_REUSEADDR := 128
  REDIS_CONNECT_RETRIES := 10
  REDIS_CONN_TCP := 0
  REDIS_ERR_IO_KIND := 1
  REDIS_ERR_OTHER_KIND := 2
  EINPROGRESS := 112
  EHOSTUNREACH := 110
  EADDRNOTAVAIL := 101
  ETIMEDOUT := 138

/-- A fresh context as hiredis initialises it: no error, no socket, the given flags. -/
def freshContext (flags : Nat) : redisContext where
  err := 0
  errstr := []
  sock := INVALID_SOCKET
  flags := flags
  connection_type := 0
  timeout := none
  tcp_host := none
  tcp_source_addr := none
  tcp_port := 0

/-- The state before a run on a fresh context. -/
def freshState (flags : Nat) : NetState where
  c := freshContext flags
  errno := 0
  clock := 0
  trace := []

/-- An operating system on which every call succeeds: one IPv4 record for every name,
socket 5, no pending socket error. -/
def calmOS : OS where
  getaddrinfo := fun _ => (0, [{ ai_family := 2, ai_socktype := 1, ai_protocol := 6, ai_addr := 1 }])
  socket := fun _ => { ret := 5, errno := none }
  ioctlsocket := fun _ => { ret := 0, errno := none }
  setsockopt := fun _ => { ret := 0, errno := none }
  getsockopt := fun _ => ({ ret := 0, errno := none }, 0)
  bind := fun _ => { ret := 0, errno := none }
  connect := fun _ => { ret := 0, errno := none }
  WSAPoll := fun _ => { ret := 1, errno := none }
  strerror := fun _ => "error".toList
  gai_strerror := fun _ => "resolver error".toList

/-- A backend for concrete runs: the single-node factories hand out the context at
address 4096, the cluster factory the one at 8192, every other call returns 0 (OK). -/
def sampleBackend : Backend where
  respond := fun _ c =>
    match c with
    | .redisConnect _ _ => 4096
    | .redisConnectWithTimeout _ _ _ => 4096
    | .redisClusterContextInit => 8192
    | _ => 0

/-- The backend of `sampleBackend`, except that add-nodes fails. -/
def rejectingBackend : Backend where
  respond := fun _ c =>
    match c with
    | .redisClusterContextInit => 8192
    | .redisClusterSetOptionAddNodes _ _ => -1
    | _ => 0

/-- A single-node handle for concrete runs, wrapping the context at address 4096. -/
def sampleSingleHandle : redisClient where
  serverType := REDIS_SINGLE_NODE
  backend := 4096

/-- A cluster handle for concrete runs, wrapping the cluster context at address 8192. -/
def sampleClusterHandle : redisClient where
  serverType := REDIS_CLUSTER
  backend := 8192

/-- A backend on which every call fails: statuses are `REDIS_ERR`. -/
def failingBackend : Backend where
  respond := fun _ _ => -1

/-! ## Reading a trace -/

/-- The destination addresses of the `connect` calls of a trace, in order. -/
def connectAddrs (tr : List NetEvent) : List Nat :=
  tr.filterMap (fun e => match e with
    | .connect _ a => some a
    | _ => none)

/-- Whether an event is a `WSAPoll` call. -/
def NetEvent.isPoll : NetEvent → Bool
  | .WSAPoll _ _ => true
  | _ => false

/-- Whether an event is a `getsockopt` call. -/
def NetEvent.isGetsockopt : NetEvent → Bool
  | .getsockopt _ _ => true
  | _ => false

/-- Whether an event is a write to the error slot through `__redisSetError`. -/
def NetEvent.isSetError : NetEvent → Bool
  | .setError _ _ => true
  | _ => false

/-- The number of `WSAPoll` calls in a trace. -/
def pollCount (tr : List NetEvent) : Nat :=
  tr.countP NetEvent.isPoll

/-- A timeout that `redisContextWaitReady` does not reject (line 139). -/
def WellFormedTimeout (cfg : Config) (timeout : Option timeval) : Prop :=
  ∀ tv, timeout = some tv → tv.tv_usec ≤ 1000000 ∧ tv.tv_sec ≤ __MAX_MSEC cfg

/-- The state of a context whose socket 5 has a non-blocking `connect` in flight. -/
def inProgressState : NetState where
  c := { freshContext 1 with sock := 5 }
  errno := 112
  clock := 0
  trace := []

/-- The operating system of `calmOS`, except that `WSAPoll` fails. -/
def pollFailOS : OS :=
  { calmOS with WSAPoll := fun _ => { ret := -1, errno := some 4 } }

/-- The operating system of `calmOS`, except that `setsockopt` fails. -/
def setsockoptFailOS : OS :=
  { calmOS with setsockopt := fun _ => { ret := -1, errno := some 22 } }

/-- The operating system of `calmOS`, except that the peer refuses the connection: `connect`
reports `EINPROGRESS`, the socket becomes writable and its `SO_ERROR` is 107. -/
def refusedOS : OS :=
  { calmOS with connect := fun _ => { ret := -1, errno := some 112 }
                getsockopt := fun _ => ({ ret := 0, errno := none }, 107) }

/-- The sockets handed to the `connect` calls of a trace, in order. -/
def connectSocks (tr : List NetEvent) : List Int :=
  tr.filterMap (fun e => match e with
    | .connect s _ => some s
    | _ => none)

/-- The test `c->flags & REDIS_CONNECTED`: the `CONNECTED` flag is set. -/
def FlagConnected (cfg : Config) (c : redisContext) : Prop :=
  c.flags &&& cfg.REDIS_CONNECTED ≠ 0

/-- The invariant of the data model: when `CONNECTED` is set the socket is valid. -/
def ConnectedImpliesValid (cfg : Config) (c : redisContext) : Prop :=
  FlagConnected cfg c → c.sock ≠ INVALID_SOCKET

/-- The state of a blocking context that was connected on socket 7 and is being
reconnected: flags `REDIS_BLOCK | REDIS_CONNECTED` (3), host and port as stored. -/
def reconnectState : NetState where
  c := { freshContext 3 with sock := 7, tcp_host := some "192.0.2.1".toList, tcp_port := 6379 }
  errno := 0
  clock := 0
  trace := []

/-- The operating system of `calmOS`, except that the peer never answers: `connect`
reports `EINPROGRESS` (112) and the poll for writability returns 0. -/
def silentOS : OS :=
  { calmOS with connect := fun _ => { ret := -1, errno := some 112 }
                WSAPoll := fun _ => { ret := 0, errno := none } }

/-- What a run of the record loop that starts in `st` and ends with `r` does to the flags
and the socket: on ERR the flags are those of `st`; on OK the `CONNECTED` bits are added to
them, the socket is valid and it is the socket of the last `connect` call. -/
def ConnectOutcome (cfg : Config) (st : NetState) (r : Int × NetState) : Prop :=
  (r.1 = REDIS_OK ∨ r.1 = REDIS_ERR) ∧
  (r.1 = REDIS_ERR → r.2.c.flags = st.c.flags) ∧
  (r.1 = REDIS_OK →
    r.2.c.flags = st.c.flags ||| cfg.REDIS_CONNECTED ∧
    r.2.c.sock ≠ INVALID_SOCKET ∧
    (connectSocks r.2.trace).getLast? = some r.2.c.sock)

/-! ## Reading a factory outcome -/

/-- The backend calls of a factory run, with the values they returned. -/
def ConnectResult.events : ConnectResult → List Event
  | .fault => []
  | .ret _ calls => calls

/-- A dispatcher entry forwarded to `call`: that call is the only one made, and the
value the entry returns is the value the call returned. -/
def ForwardsTo (w : Backend) (hist : List Event) (call : Call) (d : Dispatch) : Prop :=
  d.2 = [(call, w.respond hist call)] ∧ d.1 = w.respond hist call

/-! ## Lemmas on the string helpers -/

theorem strstr_single_none (c : Char) (s : CString) : strstr s [c] = none ↔ c ∉ s := by
  induction s with
  | nil => simp [strstr]
  | cons x xs ih =>
    by_cases hx : c = x
    · subst hx
      simp [strstr, List.isPrefixOf]
    · have hx2 : ¬ x = c := fun h => hx h.symm
      simp [strstr, List.isPrefixOf, hx, hx2, ih]

theorem strstr_single_split (c : Char) (pre post : CString) (h : c ∉ pre) :
    strstr (pre ++ c :: post) [c] = some pre.length := by
  induction pre with
  | nil => simp [strstr, List.isPrefixOf]
  | cons x xs ih =>
    have hx : ¬ c = x := by
      intro e
      exact h (by simp [e])
    have hxs : c ∉ xs := fun e => h (List.mem_cons_of_mem _ e)
    simp [strstr, List.isPrefixOf, hx, ih hxs]

theorem split_at_first (c : Char) (s : CString) (h : c ∈ s) :
    s = s.takeWhile (fun x => x ≠ c) ++ c :: (s.dropWhile (fun x => x ≠ c)).drop 1 ∧
      c ∉ s.takeWhile (fun x => x ≠ c) := by
  induction s with
  | nil => simp at h
  | cons x xs ih =>
    by_cases hx : x = c
    · subst hx
      simp [List.takeWhile, List.dropWhile]
    · have hxs : c ∈ xs := by
        rcases List.mem_cons.mp h with e | e
        · exact absurd e.symm hx
        · exact e
      have hx2 : ¬ c = x := fun e => hx e.symm
      obtain ⟨h1, h2⟩ := ih hxs
      simp only [List.takeWhile, List.dropWhile, ne_eq, hx, not_false_eq_true, decide_True,
        List.cons_append, List.mem_cons, hx2, false_or]
      exact ⟨by rw [← h1], h2⟩

theorem splitHostPort_no_colon (addr : CString) (h : ':' ∉ addr) :
    splitHostPort addr = (addr, 6379) := by
  simp [splitHostPort, (strstr_single_none ':' addr).mpr h]

theorem splitHostPort_split (pre post : CString) (h : ':' ∉ pre) :
    splitHostPort (pre ++ ':' :: post) = (pre, atoi post) := by
  simp [splitHostPort, strstr_single_split ':' pre post h]

theorem splitHostPort_colon (addr : CString) (h : ':' ∈ addr) :
    splitHostPort addr =
      (addr.takeWhile (fun x => x ≠ ':'), atoi ((addr.dropWhile (fun x => x ≠ ':')).drop 1)) := by
  obtain ⟨h1, h2⟩ := split_at_first ':' addr h
  conv_lhs => rw [h1]
  exact splitHostPort_split _ _ h2

theorem takeWhile_all {α : Type} (p : α → Bool) (l : List α) (h : ∀ x ∈ l, p x = true) :
    l.takeWhile p = l := by
  induction l with
  | nil => rfl
  | cons x xs ih =>
    have hx : p x = true := h x (by simp)
    simp [List.takeWhile, hx, ih (fun y hy => h y (List.mem_cons_of_mem _ hy))]

theorem isdigit_bounds (c : Char) (h : isdigit c = true) : 48 ≤ c.toNat ∧ c.toNat ≤ 57 := by
  simpa [isdigit] using h

theorem atoi_digits (d : CString) (hne : d ≠ []) (hd : ∀ c ∈ d, isdigit c = true)
    (hfit : (decimalValue d : Int) ≤ INT_MAX) : atoi d = decimalValue d := by
  cases d with
  | nil => exact absurd rfl hne
  | cons c r =>
    have hc := isdigit_bounds c (hd c (by simp))
    have hsp : isspace c = false := by
      have h32 : c ≠ ' ' := by
        rintro rfl
        revert hc
        decide
      simp only [isspace, h32, decide_False, Bool.false_or, Bool.and_eq_false_imp,
        decide_eq_true_eq, decide_eq_false_iff_not, not_le]
      omega
    have hminus : c ≠ '-' := by
      rintro rfl
      revert hc
      decide
    have hplus : c ≠ '+' := by
      rintro rfl
      revert hc
      decide
    have htw := takeWhile_all isdigit (c :: r) hd
    have hdrop : List.dropWhile isspace (c :: r) = c :: r := by
      simp [List.dropWhile, hsp]
    have hsig : (match c :: r with
        | '-' :: r => (true, r)
        | '+' :: r => (false, r)
        | _ => (false, c :: r)) = ((false, c :: r) : Bool × CString) := by
      split
      · rename_i heq
        exact absurd (List.cons.inj heq).1 hminus
      · rename_i heq
        exact absurd (List.cons.inj heq).1 hplus
      · rfl
    unfold atoi
    simp only [hdrop, hsig, htw]
    have h0 : (0 : Int) ≤ decimalValue (c :: r) := Int.natCast_nonneg _
    simp only [INT_MAX] at hfit
    simp only [Bool.false_eq_true, ↓reduceIte, wrapInt]
    omega

/-! ## Theorems on `redis_client.c` -/

theorem cluster_path_stops_after_failed_add_nodes :
    (redisClientConnect rejectingBackend [] (some "10.0.0.1:7000,10.0.0.2:7000".toList)) =
      .ret none [(.redisClusterContextInit, 8192),
        (.redisClusterSetOptionAddNodes 8192 "10.0.0.1:7000,10.0.0.2:7000".toList, -1)] := by
  decide

/-- C2: for a comma-free address the single-node factory receives the whole address and
port 6379 when there is no `:`; and when the address is `h ++ ":" ++ d` with `d` a non-empty
string of decimal digits whose value fits in an `int`, it receives the text before the first
`:` as host and the `atoi` value of the text after it as port, which are `h` and the decimal
value of `d` when `h` itself has no `:`. -/
theorem C2_host_and_port (w : Backend) (hist : List Event) (addr : CString) (tv : timeval)
    (hcomma : ',' ∉ addr) :
    (':' ∉ addr →
      (redisClientConnect w hist (some addr)).events.map Prod.fst =
        [.redisConnect addr 6379] ∧
      (redisClientConnectWithTimeout w hist (some addr) tv).events.map Prod.fst =
        [.redisConnectWithTimeout addr 6379 tv]) ∧
    (∀ h d : CString, addr = h ++ ':' :: d → d ≠ [] → (∀ c ∈ d, isdigit c = true) →
      (decimalValue d : Int) ≤ INT_MAX →
      (redisClientConnect w hist (some addr)).events.map Prod.fst =
        [.redisConnect (addr.takeWhile (fun x => x ≠ ':'))
          (atoi ((addr.dropWhile (fun x => x ≠ ':')).drop 1))] ∧
      (redisClientConnectWithTimeout w hist (some addr) tv).events.map Prod.fst =
        [.redisConnectWithTimeout (addr.takeWhile (fun x => x ≠ ':'))
          (atoi ((addr.dropWhile (fun x => x ≠ ':')).drop 1)) tv] ∧
      (':' ∉ h →
        addr.takeWhile (fun x => x ≠ ':') = h ∧
        atoi ((addr.dropWhile (fun x => x ≠ ':')).drop 1) = decimalValue d)) := by
  have hs := (strstr_single_none ',' addr).mpr hcomma
  refine ⟨fun hcolon => ?_, fun h d hadd hne hdig hfit => ?_⟩
  · simp [redisClientConnect, redisClientConnectWithTimeout, hs, Backend.invoke,
      ConnectResult.events, splitHostPort_no_colon addr hcolon]
  · have hmem : ':' ∈ addr := by simp [hadd]
    refine ⟨?_, ?_, fun hh => ?_⟩
    · simp [redisClientConnect, hs, Backend.invoke, ConnectResult.events,
        splitHostPort_colon addr hmem]
    · simp [redisClientConnectWithTimeout, hs, Backend.invoke, ConnectResult.events,
        splitHostPort_colon addr hmem]
    · have h1 := splitHostPort_colon addr hmem
      have h2 := splitHostPort_split h d hh
      rw [← hadd, h1] at h2
      have h3 := Prod.mk.inj h2
      exact ⟨h3.1, h3.2.trans (atoi_digits d hne hdig hfit)⟩

/-- Witness of C2: `127.0.0.1` gives host `127.0.0.1` and port 6379, and so does
`127.0.0.1:6379`. -/
theorem C2_host_and_port_witness :
    (',' ∉ "127.0.0.1".toList ∧ ':' ∉ "127.0.0.1".toList ∧
      (redisClientConnect sampleBackend [] (some "127.0.0.1".toList)).events.map Prod.fst =
        [.redisConnect "127.0.0.1".toList 6379]) ∧
    (',' ∉ "127.0.0.1:6379".toList ∧
      "127.0.0.1:6379".toList = "127.0.0.1".toList ++ ':' :: "6379".toList ∧
      (redisClientConnect sampleBackend [] (some "127.0.0.1:6379".toList)).events.map Prod.fst =
        [.redisConnect ("127.0.0.1:6379".toList.takeWhile (fun x => x ≠ ':'))
          (atoi (("127.0.0.1:6379".toList.dropWhile (fun x => x ≠ ':')).drop 1))] ∧
      "127.0.0.1:6379".toList.takeWhile (fun x => x ≠ ':') = "127.0.0.1".toList ∧
      atoi (("127.0.0.1:6379".toList.dropWhile (fun x => x ≠ ':')).drop 1) = 6379) :=
  ⟨⟨by decide, by decide,
      ((C2_host_and_port sampleBackend [] "127.0.0.1".toList ⟨1, 0⟩ (by decide)).1
        (by decide)).1⟩,
    ⟨by decide, by decide,
      ((C2_host_and_port sampleBackend [] "127.0.0.1:6379".toList ⟨1, 0⟩ (by decide)).2
        "127.0.0.1".toList "6379".toList (by decide) (by decide) (by decide) (by decide)).1,
      (((C2_host_and_port sampleBackend [] "127.0.0.1:6379".toList ⟨1, 0⟩ (by decide)).2
        "127.0.0.1".toList "6379".toList (by decide) (by decide) (by decide) (by decide)).2.2
          (by decide)).1,
      (((C2_host_and_port sampleBackend [] "127.0.0.1:6379".toList ⟨1, 0⟩ (by decide)).2
        "127.0.0.1".toList "6379".toList (by decide) (by decide) (by decide) (by decide)).2.2
          (by decide)).2⟩⟩

/-- C4: on a handle with the tag single (resp. cluster) every forwarding dispatcher entry
makes exactly one backend call, the operation of that variant with the caller's arguments
and the wrapped context, and returns what that call returned. -/
theorem C4_dispatch_forwards (w : Backend) (hist : List Event) (c : redisClient)
    (tv : timeval) (reply : Int) (cmd : CString) (len : Nat) (format : CString) (ap : Int)
    (argc argv argvlen : Int) :
    (c.serverType = REDIS_SINGLE_NODE →
      ForwardsTo w hist (.redisReconnect c.backend) (redisClientReconnect w hist c) ∧
      ForwardsTo w hist (.redisEnableKeepAlive c.backend) (redisClientEnableKeepAlive w hist c) ∧
      ForwardsTo w hist (.redisSetTimeout c.backend tv) (redisClientSetTimeout w hist c tv) ∧
      ForwardsTo w hist (.redisGetReply c.backend reply) (redisClientGetReply w hist c reply) ∧
      ForwardsTo w hist (.redisAppendFormattedCommand c.backend cmd len)
        (redisClientAppendFormattedCommand w hist c cmd len) ∧
      ForwardsTo w hist (.redisvAppendCommand c.backend format ap)
        (redisClientvAppendCommand w hist c format ap) ∧
      ForwardsTo w hist (.redisAppendCommandArgv c.backend argc argv argvlen)
        (redisClientAppendCommandArgv w hist c argc argv argvlen) ∧
      ForwardsTo w hist (.redisvCommand c.backend format ap)
        (redisClientvCommand w hist c format ap) ∧
      ForwardsTo w hist (.redisCommandArgv c.backend argc argv argvlen)
        (redisClientCommandArgv w hist c argc argv argvlen)) ∧
    (c.serverType = REDIS_CLUSTER →
      ForwardsTo w hist (.redisClusterSetOptionTimeout c.backend tv)
        (redisClientSetTimeout w hist c tv) ∧
      ForwardsTo w hist (.redisClusterGetReply c.backend reply)
        (redisClientGetReply w hist c reply) ∧
      ForwardsTo w hist (.redisClusterAppendCommand c.backend cmd len)
        (redisClientAppendFormattedCommand w hist c cmd len) ∧
      ForwardsTo w hist (.redisClustervAppendCommand c.backend format ap)
        (redisClientvAppendCommand w hist c format ap) ∧
      ForwardsTo w hist (.redisClusterAppendCommandArgv c.backend argc argv argvlen)
        (redisClientAppendCommandArgv w hist c argc argv argvlen) ∧
      ForwardsTo w hist (.redisClustervCommand c.backend format ap)
        (redisClientvCommand w hist c format ap) ∧
      ForwardsTo w hist (.redisClusterCommandArgv c.backend argc argv argvlen)
        (redisClientCommandArgv w hist c argc argv argvlen)) := by
  constructor
  · intro h
    simp [ForwardsTo, forward, Backend.invoke, h, redisClientReconnect,
      redisClientEnableKeepAlive, redisClientSetTimeout, redisClientGetReply,
      redisClientAppendFormattedCommand, redisClientvAppendCommand,
      redisClientAppendCommandArgv, redisClientvCommand, redisClientCommandArgv]
  · intro h
    have hne : ¬ REDIS_CLUSTER = REDIS_SINGLE_NODE := by decide
    simp [ForwardsTo, forward, Backend.invoke, h, hne, redisClientSetTimeout,
      redisClientGetReply, redisClientAppendFormattedCommand, redisClientvAppendCommand,
      redisClientAppendCommandArgv, redisClientvCommand, redisClientCommandArgv]

/-- Witness of C4: on the sample single-node handle the reply read is forwarded to
`redisGetReply`, on the sample cluster handle to `redisClusterGetReply`. -/
theorem C4_dispatch_forwards_witness :
    (sampleSingleHandle.serverType = REDIS_SINGLE_NODE ∧
      ForwardsTo failingBackend [] (.redisGetReply sampleSingleHandle.backend 64)
        (redisClientGetReply failingBackend [] sampleSingleHandle 64)) ∧
    (sampleClusterHandle.serverType = REDIS_CLUSTER ∧
      ForwardsTo failingBackend [] (.redisClusterGetReply sampleClusterHandle.backend 64)
        (redisClientGetReply failingBackend [] sampleClusterHandle 64)) :=
  ⟨⟨by decide,
      ((C4_dispatch_forwards failingBackend [] sampleSingleHandle ⟨1, 0⟩ 64 [] 0 [] 0 0 0 0).1
        (by decide)).2.2.2.1⟩,
    ⟨by decide,
      ((C4_dispatch_forwards failingBackend [] sampleClusterHandle ⟨1, 0⟩ 64 [] 0 [] 0 0 0 0).2
        (by decide)).2.1⟩⟩

/-- C5: on a handle with the tag cluster, `redisClientReconnect` and
`redisClientEnableKeepAlive` return OK, which is 0, and make no backend call, whatever the
backend would answer. -/
theorem C5_cluster_reconnect_keepalive_noop (w : Backend) (hist : List Event)
    (c : redisClient) (h : c.serverType = REDIS_CLUSTER) :
    redisClientReconnect w hist c = (0, []) ∧
    redisClientEnableKeepAlive w hist c = (0, []) := by
  have hne : ¬ REDIS_CLUSTER = REDIS_SINGLE_NODE := by decide
  simp [redisClientReconnect, redisClientEnableKeepAlive, h, hne, REDIS_OK]

/-- Witness of C5: the sample cluster handle over a backend on which every call would fail. -/
theorem C5_cluster_reconnect_keepalive_noop_witness :
    sampleClusterHandle.serverType = REDIS_CLUSTER ∧
    redisClientReconnect failingBackend [] sampleClusterHandle = (0, []) ∧
    redisClientEnableKeepAlive failingBackend [] sampleClusterHandle = (0, []) :=
  ⟨by decide, C5_cluster_reconnect_keepalive_noop failingBackend [] sampleClusterHandle
    (by decide)⟩

/-- C7, as stated, fails: called with a null address, `redisClientConnect` does not return
a null handle, the run reads through the null pointer. -/
theorem C7_null_address_not_rejected :
    redisClientConnect sampleBackend [] none = .fault ∧
    redisClientConnect sampleBackend [] none ≠ .ret none [] ∧
    redisClientConnectWithTimeout sampleBackend [] none ⟨1, 0⟩ = .fault ∧
    redisClientConnectWithTimeout sampleBackend [] none ⟨1, 0⟩ ≠ .ret none [] := by
  decide

/-- C7, amended: a null address is not checked. Both factories hand it to `strstr`, so the
run reads through the null pointer before any backend call is made, and no handle, null or
not, is returned. -/
theorem C7_null_address_faults (w : Backend) (hist : List Event) (tv : timeval) :
    redisClientConnect w hist none = .fault ∧
    redisClientConnectWithTimeout w hist none tv = .fault ∧
    (redisClientConnect w hist none).events = [] ∧
    (redisClientConnectWithTimeout w hist none tv).events = [] ∧
    (∀ clt calls, redisClientConnect w hist none ≠ .ret clt calls) ∧
    (∀ clt calls, redisClientConnectWithTimeout w hist none tv ≠ .ret clt calls) := by
  simp [redisClientConnect, redisClientConnectWithTimeout, ConnectResult.events]

/-! ## Lemmas on `win32/net.c` -/

theorem redisContextCloseFd_sock (st : NetState) :
    (redisContextCloseFd st).c.sock = INVALID_SOCKET := by
  unfold redisContextCloseFd
  split_ifs with h
  · rfl
  · exact not_not.mp h

theorem redisContextCloseFd_pollCount (st : NetState) :
    pollCount (redisContextCloseFd st).trace = pollCount st.trace := by
  unfold redisContextCloseFd
  split_ifs <;> simp [pollCount, NetEvent.isPoll]

theorem redisContextCloseFd_connectAddrs (st : NetState) :
    connectAddrs (redisContextCloseFd st).trace = connectAddrs st.trace := by
  unfold redisContextCloseFd
  split_ifs <;> simp [connectAddrs]

theorem redisContextCloseFd_errno (st : NetState) :
    (redisContextCloseFd st).errno = st.errno := by
  unfold redisContextCloseFd
  split_ifs <;> rfl

theorem redisContextCloseFd_clock (st : NetState) :
    (redisContextCloseFd st).clock = st.clock := by
  unfold redisContextCloseFd
  split_ifs <;> rfl

theorem maxMsec_eq (cfg : Config)
    (hlong : cfg.LONG_MAX = 2 ^ 31 - 1 ∨ cfg.LONG_MAX = 2 ^ 63 - 1) :
    __MAX_MSEC cfg = (cfg.LONG_MAX - 999) / 1000 := by
  unfold __MAX_MSEC
  rcases hlong with h | h <;> rw [h] <;> exact Int.tdiv_eq_ediv (by norm_num) (by norm_num)

theorem ceil_div_thousand (u : Int) : ⌈(u : ℚ) / 1000⌉ = (u + 999) / 1000 := by
  rw [Int.ceil_eq_iff]
  have h1 : 1000 * ((u + 999) / 1000) ≤ u + 999 := by omega
  have h2 : u + 999 < 1000 * ((u + 999) / 1000) + 1000 := by omega
  have h1q : (1000 : ℚ) * (((u + 999) / 1000 : Int) : ℚ) ≤ (u : ℚ) + 999 := by exact_mod_cast h1
  have h2q : (u : ℚ) + 999 < 1000 * (((u + 999) / 1000 : Int) : ℚ) + 1000 := by exact_mod_cast h2
  constructor
  · rw [lt_div_iff₀ (by norm_num)]
    linarith
  · rw [div_le_iff₀ (by norm_num)]
    have h3 : 1000 * ((u + 999) / 1000) ≥ u := by omega
    have h3q : (1000 : ℚ) * (((u + 999) / 1000 : Int) : ℚ) ≥ (u : ℚ) := by exact_mod_cast h3
    linarith

theorem waitReadyMsec_in_range (cfg : Config)
    (hlong : cfg.LONG_MAX = 2 ^ 31 - 1 ∨ cfg.LONG_MAX = 2 ^ 63 - 1) (tv : timeval)
    (hok : ¬ (tv.tv_usec > 1000000 ∨ tv.tv_sec > (cfg.LONG_MAX - 999) / 1000))
    (hsec : 0 ≤ tv.tv_sec) (husec : 0 ≤ tv.tv_usec) :
    tv.tv_sec * 1000 + (tv.tv_usec + 999) / 1000 ≤ cfg.LONG_MAX ∧
    waitReadyMsec cfg (some tv) =
      some (min (tv.tv_sec * 1000 + (tv.tv_usec + 999) / 1000) INT_MAX) := by
  have hmax := maxMsec_eq cfg hlong
  have htd : Int.tdiv (tv.tv_usec + 999) 1000 = (tv.tv_usec + 999) / 1000 :=
    Int.tdiv_eq_ediv (by omega) (by norm_num)
  simp only [waitReadyMsec, hmax, if_neg hok, wrapLong, INT_MAX]
  rcases hlong with h | h
  · rw [h] at hok ⊢
    norm_num at hok ⊢
    have e1 : (tv.tv_sec * 1000 + 2147483648) % 4294967296 - 2147483648 = tv.tv_sec * 1000 := by
      omega
    have e2 : (tv.tv_usec + 999 + 2147483648) % 4294967296 - 2147483648 = tv.tv_usec + 999 := by
      omega
    rw [e1, e2, htd]
    have e3 : (tv.tv_sec * 1000 + (tv.tv_usec + 999) / 1000 + 2147483648) % 4294967296 -
        2147483648 = tv.tv_sec * 1000 + (tv.tv_usec + 999) / 1000 := by omega
    rw [e3]
    refine ⟨by omega, ?_⟩
    split_ifs with hc
    · have : min (tv.tv_sec * 1000 + (tv.tv_usec + 999) / 1000) 2147483647 = 2147483647 := by
        omega
      rw [this]
    · have : min (tv.tv_sec * 1000 + (tv.tv_usec + 999) / 1000) 2147483647 =
          tv.tv_sec * 1000 + (tv.tv_usec + 999) / 1000 := by omega
      rw [this]
  · rw [h] at hok ⊢
    norm_num at hok ⊢
    have e1 : (tv.tv_sec * 1000 + 9223372036854775808) % 18446744073709551616 -
        9223372036854775808 = tv.tv_sec * 1000 := by omega
    have e2 : (tv.tv_usec + 999 + 9223372036854775808) % 18446744073709551616 -
        9223372036854775808 = tv.tv_usec + 999 := by omega
    rw [e1, e2, htd]
    have e3 : (tv.tv_sec * 1000 + (tv.tv_usec + 999) / 1000 + 9223372036854775808) %
        18446744073709551616 - 9223372036854775808 =
          tv.tv_sec * 1000 + (tv.tv_usec + 999) / 1000 := by omega
    rw [e3]
    refine ⟨by omega, ?_⟩
    split_ifs with hc
    · have : min (tv.tv_sec * 1000 + (tv.tv_usec + 999) / 1000) 2147483647 = 2147483647 := by
        omega
      rw [this]
    · have : min (tv.tv_sec * 1000 + (tv.tv_usec + 999) / 1000) 2147483647 =
          tv.tv_sec * 1000 + (tv.tv_usec + 999) / 1000 := by omega
      rw [this]

theorem trace_prefix_closeFd (st : NetState) :
    st.trace <+: (redisContextCloseFd st).trace := by
  unfold redisContextCloseFd
  split_ifs
  · exact List.prefix_append _ _
  · exact List.prefix_refl _

theorem trace_prefix_setErrorFromErrno (os : OS) (st : NetState) (type : Int)
    (pfx : Option CString) :
    st.trace <+: (__redisSetErrorFromErrno os st type pfx).trace := by
  simp [__redisSetErrorFromErrno, __redisSetError]

theorem trace_prefix_checkSocketError (cfg : Config) (os : OS) (st : NetState) :
    st.trace <+: (redisCheckSocketError cfg os st).2.trace := by
  unfold redisCheckSocketError
  simp only
  split_ifs <;> simp [__redisSetErrorFromErrno, __redisSetError, NetState.sys]

theorem waitReady_polls (cfg : Config) (os : OS) (st : NetState) (timeout : Option timeval)
    (msec : Int) (hm : waitReadyMsec cfg timeout = some msec)
    (herr : st.errno = cfg.EINPROGRESS) :
    (st.trace ++ [.WSAPoll st.c.sock msec]) <+:
      (redisContextWaitReady cfg os st timeout).2.trace := by
  unfold redisContextWaitReady
  simp only [hm, if_pos herr]
  split_ifs
  · exact (trace_prefix_setErrorFromErrno os (st.sys (os.WSAPoll st.clock)
      (.WSAPoll st.c.sock msec)) _ _).trans (trace_prefix_closeFd _)
  · exact (trace_prefix_setErrorFromErrno os
      { st.sys (os.WSAPoll st.clock) (.WSAPoll st.c.sock msec) with errno := cfg.ETIMEDOUT }
      _ _).trans (trace_prefix_closeFd _)
  · exact trace_prefix_checkSocketError cfg os
      (st.sys (os.WSAPoll st.clock) (.WSAPoll st.c.sock msec))
  · exact trace_prefix_checkSocketError cfg os
      (st.sys (os.WSAPoll st.clock) (.WSAPoll st.c.sock msec))

theorem waitReady_rejected (cfg : Config) (os : OS) (st : NetState) (timeout : Option timeval)
    (hm : waitReadyMsec cfg timeout = none) :
    (redisContextWaitReady cfg os st timeout).1 = REDIS_ERR ∧
    (redisContextWaitReady cfg os st timeout).2.c.sock = INVALID_SOCKET ∧
    pollCount (redisContextWaitReady cfg os st timeout).2.trace = pollCount st.trace ∧
    connectAddrs (redisContextWaitReady cfg os st timeout).2.trace = connectAddrs st.trace ∧
    (redisContextWaitReady cfg os st timeout).2.clock = st.clock ∧
    (redisContextWaitReady cfg os st timeout).2.errno = st.errno := by
  unfold redisContextWaitReady
  simp only [hm]
  refine ⟨trivial, redisContextCloseFd_sock _, ?_, ?_, ?_, ?_⟩
  · rw [redisContextCloseFd_pollCount]
    simp [__redisSetErrorFromErrno, __redisSetError, pollCount, NetEvent.isPoll]
  · rw [redisContextCloseFd_connectAddrs]
    simp [__redisSetErrorFromErrno, __redisSetError, connectAddrs]
  · rw [redisContextCloseFd_clock]
    rfl
  · rw [redisContextCloseFd_errno]
    rfl

theorem waitReady_not_in_progress (cfg : Config) (os : OS) (st : NetState)
    (timeout : Option timeval) (herr : st.errno ≠ cfg.EINPROGRESS) :
    (redisContextWaitReady cfg os st timeout).1 = REDIS_ERR ∧
    (redisContextWaitReady cfg os st timeout).2.c.sock = INVALID_SOCKET ∧
    pollCount (redisContextWaitReady cfg os st timeout).2.trace = pollCount st.trace ∧
    connectAddrs (redisContextWaitReady cfg os st timeout).2.trace = connectAddrs st.trace ∧
    (redisContextWaitReady cfg os st timeout).2.clock = st.clock ∧
    (redisContextWaitReady cfg os st timeout).2.errno = st.errno := by
  cases hm : waitReadyMsec cfg timeout with
  | none => exact waitReady_rejected cfg os st timeout hm
  | some msec =>
    unfold redisContextWaitReady
    simp only [hm, if_neg herr]
    refine ⟨trivial, redisContextCloseFd_sock _, ?_, ?_, ?_, ?_⟩
    · rw [redisContextCloseFd_pollCount]
      simp [__redisSetErrorFromErrno, __redisSetError, pollCount, NetEvent.isPoll]
    · rw [redisContextCloseFd_connectAddrs]
      simp [__redisSetErrorFromErrno, __redisSetError, connectAddrs]
    · rw [redisContextCloseFd_clock]
      rfl
    · rw [redisContextCloseFd_errno]
      rfl

theorem waitReadyMsec_wellFormed (cfg : Config) (timeout : Option timeval)
    (hwf : WellFormedTimeout cfg timeout) : ∃ msec, waitReadyMsec cfg timeout = some msec := by
  cases timeout with
  | none => exact ⟨-1, rfl⟩
  | some tv =>
    obtain ⟨h1, h2⟩ := hwf tv rfl
    have hno : ¬ (tv.tv_usec > 1000000 ∨ tv.tv_sec > __MAX_MSEC cfg) := by
      intro h
      rcases h with h | h <;> omega
    simp only [waitReadyMsec, if_neg hno]
    split_ifs <;> exact ⟨_, rfl⟩

theorem connectLoop_cons (cfg : Config) (os : OS) (family : Int) (blocking reuseaddr : Nat)
    (p : addrinfo) (rest : List addrinfo) (reuses : Int) (st : NetState) :
    connectLoop cfg os family blocking reuseaddr (p :: rest) reuses st =
      match connectAttempt cfg os family blocking reuseaddr p st with
      | (.next, st1) => connectLoop cfg os family blocking reuseaddr rest reuses st1
      | (.addrretry, st1) =>
        if reuses + 1 ≥ cfg.REDIS_CONNECT_RETRIES then (REDIS_ERR, st1)
        else connectLoop cfg os family blocking reuseaddr (p :: rest) (reuses + 1) st1
      | (.error, st1) => (REDIS_ERR, st1)
      | (.connected, st1) => (REDIS_OK, st1) := by
  rw [connectLoop]

theorem waitReady_rejected_trace (cfg : Config) (os : OS) (st : NetState)
    (timeout : Option timeval) (hm : waitReadyMsec cfg timeout = none) :
    (redisContextWaitReady cfg os st timeout).2.trace =
      st.trace ++ .setError cfg.REDIS_ERR_IO_KIND ((os.strerror st.errno).take 127) ::
        (if st.c.sock ≠ INVALID_SOCKET then [.closesocket st.c.sock] else []) := by
  unfold redisContextWaitReady
  simp only [hm]
  unfold redisContextCloseFd
  by_cases hs : st.c.sock = INVALID_SOCKET
  · simp [__redisSetErrorFromErrno, __redisSetError, hs]
  · simp [__redisSetErrorFromErrno, __redisSetError, hs]

/-! ## Theorems on `win32/net.c` -/

/-- C10: in `redisContextWaitReady`, for a `long` of 32 or of 64 bits. A non-null timeout
with `tv_usec > 1000000` or `tv_sec > (LONG_MAX - 999) / 1000` makes the wait return ERR
with the socket closed and without polling: all it does is write the error and, when the
context holds a socket, call `closesocket` on it and set `c->sock` to `INVALID_SOCKET`.
Any other non-null timeout with both fields
non-negative gives the poll deadline `min (tv_sec * 1000 + ceil (tv_usec / 1000)) INT_MAX`,
and `tv_sec * 1000 + (tv_usec + 999) / 1000` does not exceed `LONG_MAX`. A null timeout gives
the deadline -1. The deadline is the value handed to `WSAPoll` when the wait polls. -/
theorem C10_wait_deadline (cfg : Config) (os : OS) (st : NetState)
    (hlong : cfg.LONG_MAX = 2 ^ 31 - 1 ∨ cfg.LONG_MAX = 2 ^ 63 - 1) :
    (∀ tv : timeval, (tv.tv_usec > 1000000 ∨ tv.tv_sec > (cfg.LONG_MAX - 999) / 1000) →
      (redisContextWaitReady cfg os st (some tv)).1 = REDIS_ERR ∧
      (redisContextWaitReady cfg os st (some tv)).2.c.sock = INVALID_SOCKET ∧
      pollCount (redisContextWaitReady cfg os st (some tv)).2.trace = pollCount st.trace ∧
      (redisContextWaitReady cfg os st (some tv)).2.trace =
        st.trace ++ .setError cfg.REDIS_ERR_IO_KIND ((os.strerror st.errno).take 127) ::
          (if st.c.sock ≠ INVALID_SOCKET then [.closesocket st.c.sock] else []) ∧
      (st.c.sock ≠ INVALID_SOCKET →
        (redisContextWaitReady cfg os st (some tv)).2.trace.count
          (.closesocket st.c.sock) = st.trace.count (.closesocket st.c.sock) + 1)) ∧
    (∀ tv : timeval, ¬ (tv.tv_usec > 1000000 ∨ tv.tv_sec > (cfg.LONG_MAX - 999) / 1000) →
      0 ≤ tv.tv_sec → 0 ≤ tv.tv_usec →
      tv.tv_sec * 1000 + (tv.tv_usec + 999) / 1000 ≤ cfg.LONG_MAX ∧
      waitReadyMsec cfg (some tv) =
        some (min (tv.tv_sec * 1000 + ⌈(tv.tv_usec : ℚ) / 1000⌉) INT_MAX) ∧
      (st.errno = cfg.EINPROGRESS →
        (st.trace ++
          [.WSAPoll st.c.sock (min (tv.tv_sec * 1000 + ⌈(tv.tv_usec : ℚ) / 1000⌉) INT_MAX)]) <+:
          (redisContextWaitReady cfg os st (some tv)).2.trace)) ∧
    (waitReadyMsec cfg none = some (-1) ∧
      (st.errno = cfg.EINPROGRESS →
        (st.trace ++ [.WSAPoll st.c.sock (-1)]) <+:
          (redisContextWaitReady cfg os st none).2.trace)) := by
  refine ⟨fun tv hbad => ?_, fun tv hok hsec husec => ?_, rfl, fun herr => ?_⟩
  · have hm : waitReadyMsec cfg (some tv) = none := by
      simp only [waitReadyMsec, maxMsec_eq cfg hlong, if_pos hbad]
    have h := waitReady_rejected cfg os st (some tv) hm
    have ht := waitReady_rejected_trace cfg os st (some tv) hm
    refine ⟨h.1, h.2.1, h.2.2.1, ht, fun hs => ?_⟩
    rw [ht, if_pos hs]
    simp [List.count_append, List.count_cons]
  · have h := waitReadyMsec_in_range cfg hlong tv hok hsec husec
    rw [ceil_div_thousand]
    exact ⟨h.1, h.2, fun herr => waitReady_polls cfg os st (some tv) _ h.2 herr⟩
  · exact waitReady_polls cfg os st none (-1) rfl herr

/-- Witness of C10: a 32-bit `long`, a connect in flight on socket 5, and the timeouts
2.5 ms short of 2 s (deadline 1998 ms) and 1000001 microseconds (rejected, with one
`closesocket` call on socket 5). -/
theorem C10_wait_deadline_witness :
    (sampleConfig.LONG_MAX = 2 ^ 31 - 1 ∨ sampleConfig.LONG_MAX = 2 ^ 63 - 1) ∧
    ((1000001 : Int) > 1000000 ∨ (0 : Int) > (sampleConfig.LONG_MAX - 999) / 1000) ∧
    (redisContextWaitReady sampleConfig calmOS inProgressState (some ⟨0, 1000001⟩)).1 =
      REDIS_ERR ∧
    inProgressState.c.sock ≠ INVALID_SOCKET ∧
    (redisContextWaitReady sampleConfig calmOS inProgressState
      (some ⟨0, 1000001⟩)).2.trace.count (.closesocket inProgressState.c.sock) =
        inProgressState.trace.count (.closesocket inProgressState.c.sock) + 1 ∧
    ¬ ((997500 : Int) > 1000000 ∨ (1 : Int) > (sampleConfig.LONG_MAX - 999) / 1000) ∧
    waitReadyMsec sampleConfig (some ⟨1, 997500⟩) =
      some (min ((1 : Int) * 1000 + ⌈((997500 : Int) : ℚ) / 1000⌉) INT_MAX) :=
  ⟨by decide, by decide,
    ((C10_wait_deadline sampleConfig calmOS inProgressState (by decide)).1 ⟨0, 1000001⟩
      (by decide)).1,
    by decide,
    ((C10_wait_deadline sampleConfig calmOS inProgressState (by decide)).1 ⟨0, 1000001⟩
      (by decide)).2.2.2.2 (by decide),
    by decide,
    ((C10_wait_deadline sampleConfig calmOS inProgressState (by decide)).2.1 ⟨1, 997500⟩
      (by decide) (by decide) (by decide)).2.1⟩

/-- C8, as stated, fails: with a well-formed timeout and a connect in flight, the poll
returns -1 (not 0) while the socket's `SO_ERROR` is 0, yet the wait returns ERR, and it
never reads `SO_ERROR`. -/
theorem C8_poll_error_is_not_so_error :
    WellFormedTimeout sampleConfig (some ⟨1, 0⟩) ∧
    (pollFailOS.WSAPoll inProgressState.clock).ret = -1 ∧
    (pollFailOS.getsockopt (inProgressState.clock + 1)).2 = 0 ∧
    (redisContextWaitReady sampleConfig pollFailOS inProgressState (some ⟨1, 0⟩)).1 =
      REDIS_ERR ∧
    (redisContextWaitReady sampleConfig pollFailOS inProgressState (some ⟨1, 0⟩)).2.errno ≠
      sampleConfig.ETIMEDOUT ∧
    (redisContextWaitReady sampleConfig pollFailOS inProgressState
      (some ⟨1, 0⟩)).2.trace.countP NetEvent.isGetsockopt = 0 := by
  refine ⟨?_, by decide, by decide, by decide, by decide, by decide⟩
  intro tv h
  cases h
  decide

/-- C8, amended: for a call of `redisContextWaitReady` with a well-formed timeout. If
`errno` is not `EINPROGRESS` on entry it returns ERR without polling and leaves `errno`.
Otherwise it polls: if the poll returns 0 it returns ERR with `errno` set to `ETIMEDOUT`; if
the poll returns -1 it returns ERR with `errno` as the poll left it and does not read
`SO_ERROR`; for any other poll result it reads `SO_ERROR`, returns ERR if `getsockopt`
fails, and else returns OK when `SO_ERROR` is 0 and ERR with `errno` equal to `SO_ERROR`
otherwise. -/
theorem C8_wait_outcome (cfg : Config) (os : OS) (st : NetState) (timeout : Option timeval)
    (hwf : WellFormedTimeout cfg timeout) :
    (st.errno ≠ cfg.EINPROGRESS →
      (redisContextWaitReady cfg os st timeout).1 = REDIS_ERR ∧
      (redisContextWaitReady cfg os st timeout).2.errno = st.errno ∧
      pollCount (redisContextWaitReady cfg os st timeout).2.trace = pollCount st.trace) ∧
    (st.errno = cfg.EINPROGRESS →
      ((os.WSAPoll st.clock).ret = 0 →
        (redisContextWaitReady cfg os st timeout).1 = REDIS_ERR ∧
        (redisContextWaitReady cfg os st timeout).2.errno = cfg.ETIMEDOUT) ∧
      ((os.WSAPoll st.clock).ret = -1 →
        (redisContextWaitReady cfg os st timeout).1 = REDIS_ERR ∧
        (redisContextWaitReady cfg os st timeout).2.errno =
          (os.WSAPoll st.clock).errno.getD st.errno ∧
        (redisContextWaitReady cfg os st timeout).2.clock = st.clock + 1) ∧
      ((os.WSAPoll st.clock).ret ≠ 0 → (os.WSAPoll st.clock).ret ≠ -1 →
        ((os.getsockopt (st.clock + 1)).1.ret = -1 →
          (redisContextWaitReady cfg os st timeout).1 = REDIS_ERR) ∧
        ((os.getsockopt (st.clock + 1)).1.ret ≠ -1 → (os.getsockopt (st.clock + 1)).2 = 0 →
          (redisContextWaitReady cfg os st timeout).1 = REDIS_OK) ∧
        ((os.getsockopt (st.clock + 1)).1.ret ≠ -1 → (os.getsockopt (st.clock + 1)).2 ≠ 0 →
          (redisContextWaitReady cfg os st timeout).1 = REDIS_ERR ∧
          (redisContextWaitReady cfg os st timeout).2.errno =
            (os.getsockopt (st.clock + 1)).2))) := by
  obtain ⟨msec, hm⟩ := waitReadyMsec_wellFormed cfg timeout hwf
  refine ⟨fun herr => ?_, fun herr => ⟨fun h0 => ?_, fun h1 => ?_, fun h0 h1 => ⟨fun hq => ?_,
    fun hq hz => ?_, fun hq hz => ?_⟩⟩⟩
  · have h := waitReady_not_in_progress cfg os st timeout herr
    exact ⟨h.1, h.2.2.2.2.2, h.2.2.1⟩
  · have hne : ¬ (os.WSAPoll st.clock).ret = -1 := by omega
    unfold redisContextWaitReady
    simp only [hm, if_pos herr, if_neg hne, if_pos h0]
    exact ⟨trivial, by rw [redisContextCloseFd_errno]; rfl⟩
  · unfold redisContextWaitReady
    simp only [hm, if_pos herr, if_pos h1]
    refine ⟨trivial, ?_, ?_⟩
    · rw [redisContextCloseFd_errno]
      rfl
    · rw [redisContextCloseFd_clock]
      rfl
  · unfold redisContextWaitReady
    simp only [hm, if_pos herr, if_neg h1, if_neg h0, redisCheckSocketError, NetState.sys,
      if_pos hq]
    simp [REDIS_ERR, REDIS_OK]
  · unfold redisContextWaitReady
    simp only [hm, if_pos herr, if_neg h1, if_neg h0, redisCheckSocketError, NetState.sys,
      if_neg hq, hz]
    simp
  · unfold redisContextWaitReady
    simp only [hm, if_pos herr, if_neg h1, if_neg h0, redisCheckSocketError, NetState.sys,
      if_neg hq]
    simp [hz, REDIS_ERR, REDIS_OK, __redisSetErrorFromErrno, __redisSetError]

/-- Witness of C8 as amended: on socket 5 with a connect in flight and a timeout of one
second, the peer refuses: the poll reports the socket writable, `SO_ERROR` is 107, and the
wait returns ERR with `errno` 107. -/
theorem C8_wait_outcome_witness :
    WellFormedTimeout sampleConfig (some ⟨1, 0⟩) ∧
    inProgressState.errno = sampleConfig.EINPROGRESS ∧
    (refusedOS.WSAPoll inProgressState.clock).ret ≠ 0 ∧
    (refusedOS.WSAPoll inProgressState.clock).ret ≠ -1 ∧
    (refusedOS.getsockopt (inProgressState.clock + 1)).1.ret ≠ -1 ∧
    (refusedOS.getsockopt (inProgressState.clock + 1)).2 ≠ 0 ∧
    (redisContextWaitReady sampleConfig refusedOS inProgressState (some ⟨1, 0⟩)).1 =
      REDIS_ERR ∧
    (redisContextWaitReady sampleConfig refusedOS inProgressState (some ⟨1, 0⟩)).2.errno =
      (refusedOS.getsockopt (inProgressState.clock + 1)).2 :=
  ⟨fun tv h => by cases h; decide, by decide, by decide, by decide, by decide, by decide,
    ((((C8_wait_outcome sampleConfig refusedOS inProgressState (some ⟨1, 0⟩)
      (fun tv h => by cases h; decide)).2 (by decide)).2.2 (by decide) (by decide)).2.2
        (by decide) (by decide)).1,
    ((((C8_wait_outcome sampleConfig refusedOS inProgressState (some ⟨1, 0⟩)
      (fun tv h => by cases h; decide)).2 (by decide)).2.2 (by decide) (by decide)).2.2
        (by decide) (by decide)).2⟩

/-- C6 fails on the code. First run: a context with `REUSEADDR` and a source address, and
`setsockopt(SO_REUSEADDR)` fails: the connect returns ERR with socket 5 still open and
nothing written to the error slot, while `redisSetReuseAddr` of the same file closes the
socket and writes the error on that very failure. Second run: a blocking context whose peer
refuses the connection (`SO_ERROR` 107 after the readiness wait): the connect returns ERR
with the error written but socket 5 still open. -/
theorem C6_failure_leaves_socket_open :
    ((_redisContextConnectTcp sampleConfig setsockoptFailOS (freshState 129)
        "127.0.0.1".toList 6379 none (some "10.0.0.5".toList)).1 = REDIS_ERR ∧
      (_redisContextConnectTcp sampleConfig setsockoptFailOS (freshState 129)
        "127.0.0.1".toList 6379 none (some "10.0.0.5".toList)).2.c.sock = 5 ∧
      (_redisContextConnectTcp sampleConfig setsockoptFailOS (freshState 129)
        "127.0.0.1".toList 6379 none (some "10.0.0.5".toList)).2.c.sock ≠ INVALID_SOCKET ∧
      (_redisContextConnectTcp sampleConfig setsockoptFailOS (freshState 129)
        "127.0.0.1".toList 6379 none (some "10.0.0.5".toList)).2.trace.countP
          NetEvent.isSetError = 0 ∧
      (_redisContextConnectTcp sampleConfig setsockoptFailOS (freshState 129)
        "127.0.0.1".toList 6379 none (some "10.0.0.5".toList)).2.c.err = 0) ∧
    ((redisSetReuseAddr sampleConfig setsockoptFailOS inProgressState).1 = REDIS_ERR ∧
      (redisSetReuseAddr sampleConfig setsockoptFailOS inProgressState).2.c.sock =
        INVALID_SOCKET ∧
      (redisSetReuseAddr sampleConfig setsockoptFailOS inProgressState).2.trace.countP
        NetEvent.isSetError = 1) ∧
    ((_redisContextConnectTcp sampleConfig refusedOS (freshState 1)
        "127.0.0.1".toList 6379 none none).1 = REDIS_ERR ∧
      (_redisContextConnectTcp sampleConfig refusedOS (freshState 1)
        "127.0.0.1".toList 6379 none none).2.c.sock = 5 ∧
      (_redisContextConnectTcp sampleConfig refusedOS (freshState 1)
        "127.0.0.1".toList 6379 none none).2.c.sock ≠ INVALID_SOCKET ∧
      (_redisContextConnectTcp sampleConfig refusedOS (freshState 1)
        "127.0.0.1".toList 6379 none none).2.trace.countP NetEvent.isSetError = 1) := by
  decide!

/-! ## The flags and the socket through the TCP connect -/

theorem or_and_self_mask (f m : Nat) : (f ||| m) &&& m = m := by
  apply Nat.eq_of_testBit_eq
  intro i
  simp only [Nat.testBit_and, Nat.testBit_or]
  cases f.testBit i <;> cases m.testBit i <;> rfl

theorem redisContextCloseFd_flags (st : NetState) :
    (redisContextCloseFd st).c.flags = st.c.flags := by
  unfold redisContextCloseFd
  split_ifs <;> rfl

theorem setErrorFromErrno_flags (os : OS) (st : NetState) (type : Int) (pfx : Option CString) :
    (__redisSetErrorFromErrno os st type pfx).c.flags = st.c.flags := by
  simp [__redisSetErrorFromErrno, __redisSetError]

theorem redisSetBlocking_keeps (cfg : Config) (os : OS) (st : NetState) (b : Bool) :
    (redisSetBlocking cfg os st b).2.c.flags = st.c.flags ∧
    ((redisSetBlocking cfg os st b).1 = REDIS_OK →
      (redisSetBlocking cfg os st b).2.c = st.c ∧
      connectSocks (redisSetBlocking cfg os st b).2.trace = connectSocks st.trace) := by
  have hne : ¬ REDIS_ERR = REDIS_OK := by decide
  unfold redisSetBlocking
  simp only
  split_ifs <;>
  simp [redisContextCloseFd_flags, setErrorFromErrno_flags, NetState.sys, connectSocks, hne]

theorem redisSetTcpNoDelay_keeps (cfg : Config) (os : OS) (st : NetState) :
    (redisSetTcpNoDelay cfg os st).2.c.flags = st.c.flags ∧
    ((redisSetTcpNoDelay cfg os st).1 = REDIS_OK →
      (redisSetTcpNoDelay cfg os st).2.c = st.c ∧
      connectSocks (redisSetTcpNoDelay cfg os st).2.trace = connectSocks st.trace) := by
  have hne : ¬ REDIS_ERR = REDIS_OK := by decide
  unfold redisSetTcpNoDelay
  simp only
  split_ifs <;>
  simp [redisContextCloseFd_flags, setErrorFromErrno_flags, NetState.sys, connectSocks, hne]

theorem redisCheckSocketError_keeps (cfg : Config) (os : OS) (st : NetState) :
    (redisCheckSocketError cfg os st).2.c.flags = st.c.flags ∧
    ((redisCheckSocketError cfg os st).1 = REDIS_OK →
      (redisCheckSocketError cfg os st).2.c = st.c ∧
      connectSocks (redisCheckSocketError cfg os st).2.trace = connectSocks st.trace) := by
  have hne : ¬ REDIS_ERR = REDIS_OK := by decide
  unfold redisCheckSocketError
  simp only
  split_ifs <;>
  simp [setErrorFromErrno_flags, NetState.sys, connectSocks, hne]

theorem redisContextWaitReady_keeps (cfg : Config) (os : OS) (st : NetState)
    (timeout : Option timeval) :
    (redisContextWaitReady cfg os st timeout).2.c.flags = st.c.flags ∧
    ((redisContextWaitReady cfg os st timeout).1 = REDIS_OK →
      (redisContextWaitReady cfg os st timeout).2.c = st.c ∧
      connectSocks (redisContextWaitReady cfg os st timeout).2.trace =
        connectSocks st.trace) := by
  have hne : ¬ REDIS_ERR = REDIS_OK := by decide
  unfold redisContextWaitReady
  cases waitReadyMsec cfg timeout with
  | none =>
    simp [redisContextCloseFd_flags, setErrorFromErrno_flags, hne]
  | some msec =>
    have hk := redisCheckSocketError_keeps cfg os
      (st.sys (os.WSAPoll st.clock) (.WSAPoll st.c.sock msec))
    simp only
    split_ifs with h1 h2 h3 h4
    · simp [redisContextCloseFd_flags, setErrorFromErrno_flags, NetState.sys, hne]
    · simp [redisContextCloseFd_flags, setErrorFromErrno_flags, NetState.sys, hne]
    · exact ⟨hk.1, fun h => absurd h hne⟩
    · have hok : (redisCheckSocketError cfg os
          (st.sys (os.WSAPoll st.clock) (.WSAPoll st.c.sock msec))).1 = REDIS_OK :=
        not_not.mp h4
      refine ⟨hk.1, fun _ => ⟨(hk.2 hok).1, ?_⟩⟩
      rw [(hk.2 hok).2]
      simp [NetState.sys, connectSocks]
    · simp [redisContextCloseFd_flags, setErrorFromErrno_flags, hne]

theorem bindCandidates_keeps (os : OS) (s : Int) (l : List addrinfo) :
    ∀ st : NetState, (bindCandidates os s l st).2.c = st.c ∧
      connectSocks (bindCandidates os s l st).2.trace = connectSocks st.trace := by
  induction l with
  | nil => intro st; exact ⟨rfl, rfl⟩
  | cons b bs ih =>
    intro st
    unfold bindCandidates
    simp only
    split_ifs
    · simp [NetState.sys, connectSocks]
    · obtain ⟨h1, h2⟩ := ih (st.sys (os.bind st.clock) (.bind s b.ai_addr))
      exact ⟨h1, by rw [h2]; simp [NetState.sys, connectSocks]⟩

theorem bindSource_keeps (cfg : Config) (os : OS) (family : Int) (reuseaddr : Nat) (s : Int)
    (st : NetState) :
    (bindSource cfg os family reuseaddr s st).2.c.flags = st.c.flags ∧
    ((bindSource cfg os family reuseaddr s st).1 = true →
      (bindSource cfg os family reuseaddr s st).2.c = st.c ∧
      connectSocks (bindSource cfg os family reuseaddr s st).2.trace =
        connectSocks st.trace) := by
  have hb := fun X => bindCandidates_keeps os s (os.getaddrinfo st.clock).2 X
  have hc1 : ∀ (a : Option CString), connectSocks [NetEvent.getaddrinfo a none family] = [] :=
    fun _ => rfl
  have hc2 : connectSocks [NetEvent.setsockopt s SockOpt.SO_REUSEADDR] = [] := rfl
  have hc3 : connectSocks [NetEvent.freeaddrinfo] = [] := rfl
  have happ : ∀ a b : List NetEvent, connectSocks (a ++ b) = connectSocks a ++ connectSocks b := by
    intro a b
    simp [connectSocks]
  unfold bindSource
  split
  · exact ⟨rfl, fun _ => ⟨rfl, rfl⟩⟩
  · simp only
    split_ifs
    all_goals simp_all [__redisSetError, NetState.emit, NetState.sys, fun X => (hb X).1,
      fun X => (hb X).2]
    all_goals rfl

theorem postConnect_from (cfg : Config) (os : OS) (blocking : Nat) (st X : NetState)
    (hf : X.c.flags = st.c.flags) :
    ((postConnect cfg os blocking X).1 ≠ .connected →
      (postConnect cfg os blocking X).2.c.flags = st.c.flags) ∧
    ((postConnect cfg os blocking X).1 = .connected →
      (postConnect cfg os blocking X).2.c.flags = st.c.flags ||| cfg.REDIS_CONNECTED ∧
      (postConnect cfg os blocking X).2.c.sock = X.c.sock ∧
      connectSocks (postConnect cfg os blocking X).2.trace = connectSocks X.trace) := by
  have hB : ∀ b : Int × NetState,
      b = (if blocking ≠ 0 then redisSetBlocking cfg os X true else (REDIS_OK, X)) →
      b.2.c.flags = X.c.flags ∧
      (b.1 = REDIS_OK → b.2.c = X.c ∧ connectSocks b.2.trace = connectSocks X.trace) := by
    intro b hb
    subst hb
    split_ifs
    · exact redisSetBlocking_keeps cfg os X true
    · exact ⟨rfl, fun _ => ⟨rfl, rfl⟩⟩
  unfold postConnect
  simp only
  generalize hbdef :
    (if blocking ≠ 0 then redisSetBlocking cfg os X true else (REDIS_OK, X)) = b
  obtain ⟨hb1, hb2⟩ := hB b hbdef.symm
  have hN := redisSetTcpNoDelay_keeps cfg os b.2
  split_ifs with h1 h2
  · simp [hb1, hf]
  · simp [hN.1, hb1, hf]
  · have hbok := hb2 (not_not.mp h1)
    have hnok := hN.2 (not_not.mp h2)
    simp [hnok.1, hbok.1, hnok.2, hbok.2, hf]

theorem connectStep_spec (cfg : Config) (os : OS) (blocking reuseaddr : Nat) (s : Int)
    (p : addrinfo) (st : NetState) :
    ((connectStep cfg os blocking reuseaddr s p st).1 ≠ .connected →
      (connectStep cfg os blocking reuseaddr s p st).2.c.flags = st.c.flags) ∧
    ((connectStep cfg os blocking reuseaddr s p st).1 = .connected →
      (connectStep cfg os blocking reuseaddr s p st).2.c.flags =
        st.c.flags ||| cfg.REDIS_CONNECTED ∧
      (connectStep cfg os blocking reuseaddr s p st).2.c.sock = st.c.sock ∧
      connectSocks (connectStep cfg os blocking reuseaddr s p st).2.trace =
        connectSocks st.trace ++ [s]) := by
  have h4 : connectSocks (st.sys (os.connect st.clock) (.connect s p.ai_addr)).trace =
      connectSocks st.trace ++ [s] := by
    simp [NetState.sys, connectSocks]
  have hP := postConnect_from cfg os blocking st
    (st.sys (os.connect st.clock) (.connect s p.ai_addr)) rfl
  have hW := redisContextWaitReady_keeps cfg os
    (st.sys (os.connect st.clock) (.connect s p.ai_addr))
    (st.sys (os.connect st.clock) (.connect s p.ai_addr)).c.timeout
  rw [h4] at hP
  unfold connectStep
  simp only
  split_ifs with h1 h2 h3 h5 h6
  · simp [redisContextCloseFd_flags, NetState.sys]
  · exact hP
  · simp [NetState.sys]
  · refine ⟨fun _ => hW.1, fun h => ?_⟩
    simp at h
  · have hok := hW.2 (not_not.mp h6)
    have hP2 := postConnect_from cfg os blocking st
      (redisContextWaitReady cfg os (st.sys (os.connect st.clock) (.connect s p.ai_addr))
        (st.sys (os.connect st.clock) (.connect s p.ai_addr)).c.timeout).2
      (by rw [hok.1]; rfl)
    rw [hok.2, h4, hok.1] at hP2
    exact hP2
  · exact hP

theorem connectAttempt_spec (cfg : Config) (os : OS) (family : Int)
    (blocking reuseaddr : Nat) (p : addrinfo) (st : NetState) :
    ((connectAttempt cfg os family blocking reuseaddr p st).1 ≠ .connected →
      (connectAttempt cfg os family blocking reuseaddr p st).2.c.flags = st.c.flags) ∧
    ((connectAttempt cfg os family blocking reuseaddr p st).1 = .connected →
      (connectAttempt cfg os family blocking reuseaddr p st).2.c.flags =
        st.c.flags ||| cfg.REDIS_CONNECTED ∧
      (connectAttempt cfg os family blocking reuseaddr p st).2.c.sock ≠ INVALID_SOCKET ∧
      (connectSocks (connectAttempt cfg os family blocking reuseaddr p st).2.trace).getLast? =
        some (connectAttempt cfg os family blocking reuseaddr p st).2.c.sock) := by
  unfold connectAttempt
  simp only
  split_ifs with h1 h2 h3
  · simp [NetState.sys]
  · have hk := (redisSetBlocking_keeps cfg os
      { st.sys (os.socket st.clock) (.socket p.ai_family p.ai_socktype p.ai_protocol) with
        c := { (st.sys (os.socket st.clock)
          (.socket p.ai_family p.ai_socktype p.ai_protocol)).c with
            sock := (os.socket st.clock).ret } } false).1
    refine ⟨fun _ => hk, fun h => ?_⟩
    simp at h
  · have hk := (redisSetBlocking_keeps cfg os
      { st.sys (os.socket st.clock) (.socket p.ai_family p.ai_socktype p.ai_protocol) with
        c := { (st.sys (os.socket st.clock)
          (.socket p.ai_family p.ai_socktype p.ai_protocol)).c with
            sock := (os.socket st.clock).ret } } false).1
    have hs := (bindSource_keeps cfg os family reuseaddr (os.socket st.clock).ret
      (redisSetBlocking cfg os
        { st.sys (os.socket st.clock) (.socket p.ai_family p.ai_socktype p.ai_protocol) with
          c := { (st.sys (os.socket st.clock)
            (.socket p.ai_family p.ai_socktype p.ai_protocol)).c with
              sock := (os.socket st.clock).ret } } false).2).1
    refine ⟨fun _ => hs.trans hk, fun h => ?_⟩
    simp at h
  · have hnb := redisSetBlocking_keeps cfg os
      { st.sys (os.socket st.clock) (.socket p.ai_family p.ai_socktype p.ai_protocol) with
        c := { (st.sys (os.socket st.clock)
          (.socket p.ai_family p.ai_socktype p.ai_protocol)).c with
            sock := (os.socket st.clock).ret } } false
    have hnbok := hnb.2 (not_not.mp h2)
    have hsrc := bindSource_keeps cfg os family reuseaddr (os.socket st.clock).ret
      (redisSetBlocking cfg os
        { st.sys (os.socket st.clock) (.socket p.ai_family p.ai_socktype p.ai_protocol) with
          c := { (st.sys (os.socket st.clock)
            (.socket p.ai_family p.ai_socktype p.ai_protocol)).c with
              sock := (os.socket st.clock).ret } } false).2
    have hsrcok := hsrc.2 (by simpa using h3)
    have hstep := connectStep_spec cfg os blocking reuseaddr (os.socket st.clock).ret p
      (bindSource cfg os family reuseaddr (os.socket st.clock).ret
        (redisSetBlocking cfg os
          { st.sys (os.socket st.clock) (.socket p.ai_family p.ai_socktype p.ai_protocol) with
            c := { (st.sys (os.socket st.clock)
              (.socket p.ai_family p.ai_socktype p.ai_protocol)).c with
                sock := (os.socket st.clock).ret } } false).2).2
    have hc : (bindSource cfg os family reuseaddr (os.socket st.clock).ret
        (redisSetBlocking cfg os
          { st.sys (os.socket st.clock) (.socket p.ai_family p.ai_socktype p.ai_protocol) with
            c := { (st.sys (os.socket st.clock)
              (.socket p.ai_family p.ai_socktype p.ai_protocol)).c with
                sock := (os.socket st.clock).ret } } false).2).2.c =
        { st.c with sock := (os.socket st.clock).ret } := by
      rw [hsrcok.1, hnbok.1]
      rfl
    rw [hc] at hstep
    refine ⟨hstep.1, fun h => ?_⟩
    obtain ⟨g1, g2, g3⟩ := hstep.2 h
    refine ⟨g1, ?_, ?_⟩
    · rw [g2]
      exact h1
    · rw [g3, g2]
      simp

theorem ConnectOutcome.of_flags_eq (cfg : Config) (st s1 : NetState) (r : Int × NetState)
    (h : ConnectOutcome cfg s1 r) (hf : s1.c.flags = st.c.flags) : ConnectOutcome cfg st r := by
  unfold ConnectOutcome at h ⊢
  rw [hf] at h
  exact h

theorem ConnectOutcome.of_err (cfg : Config) (st s1 : NetState)
    (hf : s1.c.flags = st.c.flags) : ConnectOutcome cfg st (REDIS_ERR, s1) := by
  have hne : ¬ REDIS_ERR = REDIS_OK := by decide
  exact ⟨Or.inr rfl, fun _ => hf, fun h => absurd h hne⟩

theorem connectLoop_retry_outcome (cfg : Config) (os : OS) (family : Int)
    (blocking reuseaddr : Nat) (p : addrinfo) (rest : List addrinfo)
    (ih : ∀ (reuses : Int) (st : NetState),
      ConnectOutcome cfg st (connectLoop cfg os family blocking reuseaddr rest reuses st)) :
    ∀ (n : Nat) (reuses : Int) (st : NetState),
      (cfg.REDIS_CONNECT_RETRIES - reuses).toNat ≤ n →
      ConnectOutcome cfg st
        (connectLoop cfg os family blocking reuseaddr (p :: rest) reuses st) := by
  have hne : ¬ REDIS_OK = REDIS_ERR := by decide
  intro n
  induction n with
  | zero =>
    intro reuses st hn
    have ha := connectAttempt_spec cfg os family blocking reuseaddr p st
    rw [connectLoop_cons]
    generalize connectAttempt cfg os family blocking reuseaddr p st = r at ha ⊢
    obtain ⟨b, s1⟩ := r
    cases b
    · exact (ih reuses s1).of_flags_eq cfg st s1 _ (ha.1 (by simp))
    · have hge : reuses + 1 ≥ cfg.REDIS_CONNECT_RETRIES := by omega
      simp only [if_pos hge]
      exact ConnectOutcome.of_err cfg st s1 (ha.1 (by simp))
    · exact ConnectOutcome.of_err cfg st s1 (ha.1 (by simp))
    · exact ⟨Or.inl rfl, fun h => absurd h hne, fun _ => ha.2 rfl⟩
  | succ k ihk =>
    intro reuses st hn
    have ha := connectAttempt_spec cfg os family blocking reuseaddr p st
    rw [connectLoop_cons]
    generalize connectAttempt cfg os family blocking reuseaddr p st = r at ha ⊢
    obtain ⟨b, s1⟩ := r
    cases b
    · exact (ih reuses s1).of_flags_eq cfg st s1 _ (ha.1 (by simp))
    · by_cases hge : reuses + 1 ≥ cfg.REDIS_CONNECT_RETRIES
      · simp only [if_pos hge]
        exact ConnectOutcome.of_err cfg st s1 (ha.1 (by simp))
      · simp only [if_neg hge]
        exact (ihk (reuses + 1) s1 (by omega)).of_flags_eq cfg st s1 _ (ha.1 (by simp))
    · exact ConnectOutcome.of_err cfg st s1 (ha.1 (by simp))
    · exact ⟨Or.inl rfl, fun h => absurd h hne, fun _ => ha.2 rfl⟩

theorem connectLoop_outcome (cfg : Config) (os : OS) (family : Int)
    (blocking reuseaddr : Nat) (ps : List addrinfo) :
    ∀ (reuses : Int) (st : NetState),
      ConnectOutcome cfg st (connectLoop cfg os family blocking reuseaddr ps reuses st) := by
  induction ps with
  | nil =>
    intro reuses st
    rw [connectLoop]
    exact ConnectOutcome.of_err cfg st _ (by simp [__redisSetError])
  | cons p rest ih =>
    intro reuses st
    exact connectLoop_retry_outcome cfg os family blocking reuseaddr p rest ih _ reuses st
      (le_refl _)

theorem connectTcp_outcome (cfg : Config) (os : OS) (st : NetState) (addr : CString)
    (port : Int) (timeout : Option timeval) (source_addr : Option CString) :
    ConnectOutcome cfg st (_redisContextConnectTcp cfg os st addr port timeout source_addr) := by
  have hfree : ∀ (r : Int × NetState) (X : NetState), ConnectOutcome cfg X r →
      X.c.flags = st.c.flags → ConnectOutcome cfg st (r.1, r.2.emit .freeaddrinfo) := by
    intro r X h hf
    have h2 := h.of_flags_eq cfg st X r hf
    unfold ConnectOutcome at h2 ⊢
    refine ⟨h2.1, h2.2.1, fun hok => ?_⟩
    obtain ⟨g1, g2, g3⟩ := h2.2.2 hok
    refine ⟨g1, g2, ?_⟩
    have hcs : connectSocks (r.2.emit .freeaddrinfo).trace = connectSocks r.2.trace := by
      simp [NetState.emit, connectSocks]
    rw [hcs]
    exact g3
  unfold _redisContextConnectTcp
  simp only
  split_ifs with h4 h6
  · exact ConnectOutcome.of_err cfg st _ (by simp [__redisSetError])
  · exact hfree _ _ (connectLoop_outcome cfg os AF_INET6 _ _ _ 0 _) rfl
  · exact hfree _ _ (connectLoop_outcome cfg os AF_INET _ _ _ 0 _) rfl

/-- C11, as stated, fails: a context that was connected on socket 7 satisfies the invariant
and is reconnected with a timeout of one second; the peer never answers, the readiness wait
times out and closes the new socket, and the connect returns ERR with the `CONNECTED` flag
still set and the socket invalid. -/
theorem C11_reconnect_timeout_breaks_invariant :
    ConnectedImpliesValid sampleConfig reconnectState.c ∧
    (_redisContextConnectTcp sampleConfig silentOS reconnectState "192.0.2.1".toList 6379
      (some ⟨1, 0⟩) none).1 = REDIS_ERR ∧
    FlagConnected sampleConfig (_redisContextConnectTcp sampleConfig silentOS reconnectState
      "192.0.2.1".toList 6379 (some ⟨1, 0⟩) none).2.c ∧
    (_redisContextConnectTcp sampleConfig silentOS reconnectState "192.0.2.1".toList 6379
      (some ⟨1, 0⟩) none).2.c.sock = INVALID_SOCKET ∧
    ¬ ConnectedImpliesValid sampleConfig (_redisContextConnectTcp sampleConfig silentOS
      reconnectState "192.0.2.1".toList 6379 (some ⟨1, 0⟩) none).2.c := by
  have h1 : (_redisContextConnectTcp sampleConfig silentOS reconnectState "192.0.2.1".toList
      6379 (some ⟨1, 0⟩) none).2.c.flags &&& sampleConfig.REDIS_CONNECTED ≠ 0 := by decide!
  have h2 : (_redisContextConnectTcp sampleConfig silentOS reconnectState "192.0.2.1".toList
      6379 (some ⟨1, 0⟩) none).2.c.sock = INVALID_SOCKET := by decide!
  refine ⟨fun _ => by decide, by decide!, h1, h2, fun h => h h1 h2⟩

/-- C11, amended: the TCP connect never clears the `CONNECTED` flag. It returns OK or ERR;
on ERR the flags are those of the entry. For a context that enters with the flag clear the
invariant "CONNECTED set, then socket valid" holds on return, OK or ERR. On every OK return
the invariant holds, the `CONNECTED` bits are set in the flags, the socket is valid and it is
the socket of the last `connect` call. -/
theorem C11_invariant_on_ok_or_clear_entry (cfg : Config) (os : OS) (st : NetState)
    (addr : CString) (port : Int) (timeout : Option timeval) (source_addr : Option CString) :
    ((_redisContextConnectTcp cfg os st addr port timeout source_addr).1 = REDIS_OK ∨
      (_redisContextConnectTcp cfg os st addr port timeout source_addr).1 = REDIS_ERR) ∧
    ((_redisContextConnectTcp cfg os st addr port timeout source_addr).1 = REDIS_ERR →
      (_redisContextConnectTcp cfg os st addr port timeout source_addr).2.c.flags =
        st.c.flags) ∧
    (¬ FlagConnected cfg st.c →
      ConnectedImpliesValid cfg
        (_redisContextConnectTcp cfg os st addr port timeout source_addr).2.c) ∧
    ((_redisContextConnectTcp cfg os st addr port timeout source_addr).1 = REDIS_OK →
      ConnectedImpliesValid cfg
        (_redisContextConnectTcp cfg os st addr port timeout source_addr).2.c ∧
      (_redisContextConnectTcp cfg os st addr port timeout source_addr).2.c.flags &&&
        cfg.REDIS_CONNECTED = cfg.REDIS_CONNECTED ∧
      (cfg.REDIS_CONNECTED ≠ 0 →
        FlagConnected cfg
          (_redisContextConnectTcp cfg os st addr port timeout source_addr).2.c) ∧
      (_redisContextConnectTcp cfg os st addr port timeout source_addr).2.c.sock ≠
        INVALID_SOCKET ∧
      (connectSocks
        (_redisContextConnectTcp cfg os st addr port timeout source_addr).2.trace).getLast? =
          some (_redisContextConnectTcp cfg os st addr port timeout source_addr).2.c.sock) := by
  obtain ⟨h1, h2, h3⟩ := connectTcp_outcome cfg os st addr port timeout source_addr
  refine ⟨h1, h2, fun hclear => ?_, fun hok => ?_⟩
  · rcases h1 with hok | herr
    · exact fun _ => (h3 hok).2.1
    · intro hflag
      unfold FlagConnected at hflag hclear
      rw [h2 herr] at hflag
      exact absurd hflag hclear
  · obtain ⟨g1, g2, g3⟩ := h3 hok
    have hmask : (_redisContextConnectTcp cfg os st addr port timeout source_addr).2.c.flags &&&
        cfg.REDIS_CONNECTED = cfg.REDIS_CONNECTED := by
      rw [g1]
      exact or_and_self_mask _ _
    refine ⟨fun _ => g2, hmask, fun hne => ?_, g2, g3⟩
    unfold FlagConnected
    rw [hmask]
    exact hne

/-- Witness of C11 as amended: a fresh blocking context (flags 1, `CONNECTED` clear) on an
operating system where every call succeeds: the connect returns OK, the flag is set and the
invariant holds. -/
theorem C11_invariant_on_ok_or_clear_entry_witness :
    ¬ FlagConnected sampleConfig (freshState 1).c ∧
    (_redisContextConnectTcp sampleConfig calmOS (freshState 1) "127.0.0.1".toList 6379 none
      none).1 = REDIS_OK ∧
    ConnectedImpliesValid sampleConfig
      (_redisContextConnectTcp sampleConfig calmOS (freshState 1) "127.0.0.1".toList 6379 none
        none).2.c ∧
    FlagConnected sampleConfig
      (_redisContextConnectTcp sampleConfig calmOS (freshState 1) "127.0.0.1".toList 6379 none
        none).2.c ∧
    (connectSocks
      (_redisContextConnectTcp sampleConfig calmOS (freshState 1) "127.0.0.1".toList 6379 none
        none).2.trace).getLast? =
      some (_redisContextConnectTcp sampleConfig calmOS (freshState 1) "127.0.0.1".toList 6379
        none none).2.c.sock :=
  ⟨fun h => h (by decide), by decide!,
    (C11_invariant_on_ok_or_clear_entry sampleConfig calmOS (freshState 1) "127.0.0.1".toList
      6379 none none).2.2.1 (fun h => h (by decide)),
    ((C11_invariant_on_ok_or_clear_entry sampleConfig calmOS (freshState 1) "127.0.0.1".toList
      6379 none none).2.2.2 (by decide!)).2.2.1 (by decide),
    ((C11_invariant_on_ok_or_clear_entry sampleConfig calmOS (freshState 1) "127.0.0.1".toList
      6379 none none).2.2.2 (by decide!)).2.2.2.2⟩

end HiredisVip
